import Mathlib

/-
Verification of the SUNAT invoice-status worker (src/app.py) against its
natural-language specification.  The Python source is shallowly embedded:
pure functions become Lean functions, the SQL tables become lists of
records, the per-item transaction becomes explicit committed/draft state
passing, and the HTTP layer becomes an oracle from attempt number to
outcome.  Machine-level aspects that no claim touches (floating point
inputs to Decimal, unicode digit classes accepted by Python int()) are
noted at the definition they would affect.
-/

namespace SunatWorker

/-- Python/JSON values as they appear in decoded API payloads.
Covers None, bool, int, str and dict.  JSON floats and arrays are not
modelled: no claim exercises them (the status code field is integer-like
per the spec, and non-dict payloads are covered by the catch-all cases). -/
inductive PyVal where
  | null
  | bool (b : Bool)
  | int (n : Int)
  | str (s : String)
  | obj (fields : List (String × PyVal))

/-- Python dict.get: missing key yields None; a stored None is also None. -/
def objGet (fs : List (String × PyVal)) (k : String) : PyVal :=
  match fs.lookup k with
  | some v => v
  | Option.none => PyVal.null

/-- Python truthiness for the values we model. -/
def pyTruthy : PyVal → Bool
  | PyVal.null => false
  | PyVal.bool b => b
  | PyVal.int n => !(n == 0)
  | PyVal.str s => !(s == "")
  | PyVal.obj fs => !fs.isEmpty

/-- dict.get on an arbitrary value; Python raises AttributeError on a
non-dict receiver, a corner no claim reaches (the worker only calls it on
decoded dict payloads), modelled here as None. -/
def pyGet (v : PyVal) (k : String) : PyVal :=
  match v with
  | PyVal.obj fs => objGet fs k
  | _ => PyVal.null

mutual

/-- Python repr() of a value (used by str() on dicts).  String escaping
inside the repr is approximated (quotes are rendered, inner escapes are
not); only nonemptiness of the result matters to any claim. -/
def pyReprOf : PyVal → String
  | PyVal.null => "None"
  | PyVal.bool b => if b then "True" else "False"
  | PyVal.int n => toString n
  | PyVal.str s => "\x27" ++ s ++ "\x27"
  | PyVal.obj fs => "\x7b" ++ pyReprFields fs ++ "\x7d"

def pyReprFields : List (String × PyVal) → String
  | [] => ""
  | [kv] => "\x27" ++ kv.1 ++ "\x27: " ++ pyReprOf kv.2
  | kv :: rest => "\x27" ++ kv.1 ++ "\x27: " ++ pyReprOf kv.2 ++ ", " ++ pyReprFields rest

end

mutual

/-- json.dumps with ensure_ascii=False and default separators, as used for
Raw_JSON and for serializing error payloads.  String escaping is
approximated (no claim inspects the dump beyond truncation length on
short inputs). -/
def pyJsonDump : PyVal → String
  | PyVal.null => "null"
  | PyVal.bool b => if b then "true" else "false"
  | PyVal.int n => toString n
  | PyVal.str s => "\"" ++ s ++ "\""
  | PyVal.obj fs => "\x7b" ++ pyJsonDumpFields fs ++ "\x7d"

def pyJsonDumpFields : List (String × PyVal) → String
  | [] => ""
  | [kv] => "\"" ++ kv.1 ++ "\": " ++ pyJsonDump kv.2
  | kv :: rest => "\"" ++ kv.1 ++ "\": " ++ pyJsonDump kv.2 ++ ", " ++ pyJsonDumpFields rest

end

/-- Python str.strip() over code points (kernel-reducible, unlike
String.trim); unicode whitespace beyond Char.isWhitespace is not
modelled. -/
def pyStrip (s : String) : String :=
  String.mk (((s.data.dropWhile Char.isWhitespace).reverse.dropWhile Char.isWhitespace).reverse)

/-- Python s[:n] (also kernel-reducible, unlike String.take). -/
def pyTake (s : String) (n : Nat) : String :=
  String.mk (s.data.take n)

/-- Digit run acceptable to Python int(): nonempty, decimal digits with
single underscores strictly between digits. -/
def hasDoubleUnderscore : List Char → Bool
  | c1 :: c2 :: rest => (c1 == '_' && c2 == '_') || hasDoubleUnderscore (c2 :: rest)
  | _ => false

def validPyDigits (cs : List Char) : Bool :=
  !cs.isEmpty && !(cs.head? == some '_') && !(cs.getLast? == some '_') &&
  !hasDoubleUnderscore cs && cs.all (fun c => c.isDigit || c == '_')

def pyDigitsVal (cs : List Char) : Nat :=
  cs.foldl (fun a c => if c == '_' then a else a * 10 + (c.toNat - Char.toNat '0')) 0

/-- Python int(s) on a str: strip whitespace, optional sign, decimal digits
(with legal underscores).  Unicode digit classes beyond ASCII are not
modelled; no claim supplies them. -/
def pyIntOfStr (s : String) : Option Int :=
  let cs := (pyStrip s).data
  match cs with
  | '+' :: rest => if validPyDigits rest then some (Int.ofNat (pyDigitsVal rest)) else Option.none
  | '-' :: rest => if validPyDigits rest then some (-(Int.ofNat (pyDigitsVal rest))) else Option.none
  | _ => if validPyDigits cs then some (Int.ofNat (pyDigitsVal cs)) else Option.none

/-- app.py _as_str: None stays None; try str(int(v)); on failure
str(v).strip(), with empty mapped to None.  bool goes through int()
(True gives 1); float inputs are not modelled (see PyVal). -/
def as_str (v : PyVal) : Option String :=
  match v with
  | PyVal.null => Option.none
  | PyVal.bool b => some (if b then "1" else "0")
  | PyVal.int n => some (toString n)
  | PyVal.str s =>
    match pyIntOfStr s with
    | some n => some (toString n)
    | Option.none =>
      let t := pyStrip s
      if t == "" then Option.none else some t
  | PyVal.obj fs =>
    let t := pyStrip (pyReprOf (PyVal.obj fs))
    if t == "" then Option.none else some t

/-- js.get("data") guarded by isinstance(js, dict). -/
def dataOf (js : PyVal) : PyVal :=
  match js with
  | PyVal.obj fs => objGet fs ("data")
  | _ => PyVal.null

/-- _as_str(data.get("estadoCp")) guarded by isinstance(data, dict). -/
def estadoCpOf (js : PyVal) : Option String :=
  match dataOf js with
  | PyVal.obj fs => as_str (objGet fs ("estadoCp"))
  | _ => Option.none

/-- The fixed estadoCp catalog of app.py map_estado. -/
def catalogo : List (String × String × String) :=
  [("0", "NO EXISTE", "NO EXISTE (0)"),
   ("1", "ACEPTADO", "ACEPTADO (1)"),
   ("2", "ANULADO", "ANULADO (2)"),
   ("3", "AUTORIZADO", "AUTORIZADO (3)"),
   ("4", "NO AUTORIZADO", "NO AUTORIZADO (4)")]

/-- app.py map_estado: maps data.estadoCp through the catalog, with a
synthetic CODE_n pair for unknown non-null codes and all-None for a
missing code.  Total by construction (the Python function never raises). -/
def map_estado (js : PyVal) : Option String × Option String × Option String :=
  match estadoCpOf js with
  | some s =>
    match catalogo.lookup s with
    | some nd => (some nd.1, some nd.2, some s)
    | Option.none => (some ("CODE_" ++ s), some ("NO_MAPEADO (" ++ s ++ ")"), some s)
  | Option.none => (Option.none, Option.none, Option.none)

/-- Status column of INH.API_SUNAT_QUEUE. -/
inductive QStatus where
  | queued
  | processing
  | done
  | error
  deriving DecidableEq

/-- A calendar date as held in the FechaEmision column. -/
structure PyDate where
  year : Nat
  month : Nat
  day : Nat
  deriving DecidableEq

/-- An exact decimal amount (mant / 10 ^ exp), the value Decimal(tot)
receives from the driver for the money column.  Binary floats are not
modelled: the claims exercise exact decimal inputs. -/
structure Dec where
  mant : Int
  exp : Nat
  deriving DecidableEq

/-- One row of INH.API_SUNAT_QUEUE.  fetch_batch returns the first nine
columns; the remaining columns carry the queue lifecycle. -/
structure QueueRow where
  idQueue : Nat
  idFactura : Nat
  rucEmisor : String
  rucReceptor : String
  tipoDocumento : String
  serie : String
  numero : String
  fechaEmision : Option PyDate
  importeTotal : Option Dec
  status : QStatus
  attempts : Nat
  lastError : Option String
  enqueuedAt : Nat
  deriving DecidableEq

def pad2 (n : Nat) : String :=
  if n < 10 then "0" ++ toString n else toString n

def pad4 (n : Nat) : String :=
  if n < 10 then "000" ++ toString n
  else if n < 100 then "00" ++ toString n
  else if n < 1000 then "0" ++ toString n
  else toString n

/-- strftime("%d/%m/%Y") on a date value. -/
def strftime_dmY (d : PyDate) : String :=
  pad2 d.day ++ "/" ++ pad2 d.month ++ "/" ++ pad4 d.year

/-- Division rounding half away from zero (Decimal ROUND_HALF_UP), for a
positive power-of-ten divisor. -/
def roundHalfUpDiv (num den : Int) : Int :=
  if num ≥ 0 then (num + den / 2) / den
  else -((-num + den / 2) / den)

/-- Decimal(tot).quantize(Decimal("0.00"), rounding=ROUND_HALF_UP),
returned in hundredths. -/
def quantize2HalfUp (d : Dec) : Int :=
  if d.exp ≤ 2 then d.mant * (10 : Int) ^ (2 - d.exp)
  else roundHalfUpDiv d.mant ((10 : Int) ^ (d.exp - 2))

/-- str() of a two-fractional-digit Decimal given in hundredths.  (Python
prints a Decimal negative zero as "-0.00"; amounts are nonnegative and no
claim reaches that corner.) -/
def format2 (cents : Int) : String :=
  (if cents < 0 then "-" else "") ++ toString (cents.natAbs / 100) ++ "." ++ pad2 (cents.natAbs % 100)

/-- The wire request body built by app.py to_body_postman.  The branch
parsing a *string* date with strptime("%Y-%m-%d") is not modelled; the
date column arrives as a date value (Option PyDate here). -/
structure BodyPostman where
  numRuc : String
  codComp : String
  numeroSerie : String
  numero : String
  fechaEmision : Option String
  monto : String
  deriving DecidableEq

def to_body_postman (r : QueueRow) : BodyPostman :=
  { numRuc := r.rucEmisor
    codComp := r.tipoDocumento
    numeroSerie := r.serie
    numero := r.numero
    fechaEmision := r.fechaEmision.map strftime_dmY
    monto :=
      match r.importeTotal with
      | Option.none => "0.00"
      | some d => format2 (quantize2HalfUp d) }

/-- SQL ISNULL(col, ''): None normalized to the empty string; also the
Python `x or ""` normalization used by upsert_snapshot. -/
def orEmpty : Option String → String
  | some s => s
  | Option.none => ""

/-- Python truthiness of an optional string column value (`1 if estado_txt
else 0`). -/
def optStrTruthy : Option String → Bool
  | Option.none => false
  | some s => !(s == "")

/-- One row of INH.SUNAT_ESTADO_ACTUAL.  Cambio_Estado is stored as 1/0,
modelled as Bool; Mensaje is stored as text. -/
structure SnapRow where
  idFactura : Nat
  rucEmisor : String
  rucReceptor : String
  tipoDocumento : String
  serie : String
  numero : String
  importeTotal : Option Dec
  estadoActual : Option String
  estadoDescripcion : Option String
  codigoRespuesta : Option String
  mensaje : Option String
  fechaPrimeraConsulta : Nat
  fechaUltimaConsulta : Nat
  fechaUltimoCambio : Nat
  cambioEstado : Bool
  deriving DecidableEq

/-- SELECT ... WHERE IdFactura=? with fetchone(): first matching row. -/
def lookupSnap (snap : List SnapRow) (idf : Nat) : Option SnapRow :=
  snap.find? (fun s => s.idFactura == idf)

/-- UPDATE ... WHERE IdFactura=?: rewrite every row whose id matches. -/
def updWhere (snap : List SnapRow) (idf : Nat) (g : SnapRow → SnapRow) : List SnapRow :=
  snap.map (fun s => if s.idFactura == idf then g s else s)

/-- The SET clause of the changed branch of upsert_snapshot. -/
def snapChangedUpd (estado_txt estado_desc codigo_respuesta mensaje : Option String)
    (ahora : Nat) (s : SnapRow) : SnapRow :=
  { s with estadoActual := estado_txt
           estadoDescripcion := estado_desc
           codigoRespuesta := codigo_respuesta
           mensaje := mensaje
           fechaUltimaConsulta := ahora
           fechaUltimoCambio := ahora
           cambioEstado := true }

/-- The SET clause of the unchanged branch of upsert_snapshot. -/
def snapUnchangedUpd (codigo_respuesta mensaje : Option String) (ahora : Nat)
    (s : SnapRow) : SnapRow :=
  { s with codigoRespuesta := codigo_respuesta
           mensaje := mensaje
           fechaUltimaConsulta := ahora
           cambioEstado := false }

/-- The row inserted by upsert_snapshot on first sight of an invoice. -/
def snapInsertRow (r : QueueRow)
    (estado_txt estado_desc codigo_respuesta mensaje : Option String) (ahora : Nat) : SnapRow :=
  { idFactura := r.idFactura
    rucEmisor := r.rucEmisor
    rucReceptor := r.rucReceptor
    tipoDocumento := r.tipoDocumento
    serie := r.serie
    numero := r.numero
    importeTotal := r.importeTotal
    estadoActual := estado_txt
    estadoDescripcion := estado_desc
    codigoRespuesta := codigo_respuesta
    mensaje := mensaje
    fechaPrimeraConsulta := ahora
    fechaUltimaConsulta := ahora
    fechaUltimoCambio := ahora
    cambioEstado := optStrTruthy estado_txt }

/-- app.py upsert_snapshot: insert on first sight (all three timestamps =
now, flag = truthiness of the status text); on an existing row compare the
(status text, status description) pair null-normalized, and take the
changed or unchanged UPDATE branch. -/
def upsert_snapshot (snap : List SnapRow) (r : QueueRow)
    (estado_txt estado_desc codigo_respuesta mensaje : Option String) (ahora : Nat) :
    List SnapRow :=
  match lookupSnap snap r.idFactura with
  | Option.none =>
    snap ++ [snapInsertRow r estado_txt estado_desc codigo_respuesta mensaje ahora]
  | some prev =>
    let cambio := (orEmpty prev.estadoActual != orEmpty estado_txt) ||
                  (orEmpty prev.estadoDescripcion != orEmpty estado_desc)
    if cambio then
      updWhere snap r.idFactura (snapChangedUpd estado_txt estado_desc codigo_respuesta mensaje ahora)
    else
      updWhere snap r.idFactura (snapUnchangedUpd codigo_respuesta mensaje ahora)

/-- The SUNAT_* mirror columns of one DATA.FACTURA_COMPRA_BACKUS_CABECERA
row.  All mirror columns are nullable on the final side. -/
structure FinalRow where
  idFactura : Nat
  estadoSunatUlt : Option String
  estadoSunatDescripcion : Option String
  sunatCodigoRespuesta : Option String
  sunatMensaje : Option String
  sunatCambioEstado : Option Bool
  sunatFechaPrimera : Option Nat
  sunatFechaUltima : Option Nat
  sunatFechaCambio : Option Nat
  deriving DecidableEq

/-- ISNULL(CAST(d.SUNAT_Cambio_Estado AS int), -1). -/
def cambioAsInt : Option Bool → Int
  | Option.none => -1
  | some b => if b then 1 else 0

/-- The diff predicate of the *diagnostic* COUNT(*) query (step 1 of
update_final_from_snapshot).  The snapshot-side columns are non-null by
construction of upsert_snapshot, so the three-way null-safe date
comparisons collapse to comparison against `some`. -/
def finalDiffers (d : FinalRow) (s : SnapRow) : Bool :=
  (orEmpty d.estadoSunatUlt != orEmpty s.estadoActual) ||
  (orEmpty d.estadoSunatDescripcion != orEmpty s.estadoDescripcion) ||
  (cambioAsInt d.sunatCambioEstado != (if s.cambioEstado then (1 : Int) else 0)) ||
  (orEmpty d.sunatCodigoRespuesta != orEmpty s.codigoRespuesta) ||
  (orEmpty d.sunatMensaje != orEmpty s.mensaje) ||
  !(d.sunatFechaPrimera == some s.fechaPrimeraConsulta) ||
  !(d.sunatFechaUltima == some s.fechaUltimaConsulta) ||
  (s.cambioEstado && !(d.sunatFechaCambio == some s.fechaUltimoCambio))

/-- The SET clause of the step-2 UPDATE: unconditional assignment of the
mirror columns, with COALESCE for the first-query date and a CASE on the
change flag for the change date. -/
def updateFinalRow (d : FinalRow) (s : SnapRow) : FinalRow :=
  { d with
    estadoSunatUlt := s.estadoActual
    estadoSunatDescripcion := s.estadoDescripcion
    sunatCodigoRespuesta := s.codigoRespuesta
    sunatMensaje := s.mensaje
    sunatCambioEstado := some s.cambioEstado
    sunatFechaPrimera :=
      match d.sunatFechaPrimera with
      | some t => some t
      | Option.none => some s.fechaPrimeraConsulta
    sunatFechaUltima := some s.fechaUltimaConsulta
    sunatFechaCambio :=
      if s.cambioEstado then some s.fechaUltimoCambio else d.sunatFechaCambio }

/-- Effect of the step-2 UPDATE on a single final row: rewritten through
updateFinalRow when a snapshot row joins it, untouched otherwise. -/
def syncRow (snap : List SnapRow) (d : FinalRow) : FinalRow :=
  match lookupSnap snap d.idFactura with
  | some s => updateFinalRow d s
  | Option.none => d

/-- app.py update_final_from_snapshot.  Returns (updated final table,
diagnostic difference count, affected count).  The step-2 UPDATE joins
every final row to its snapshot row with *no* difference predicate, and
OUTPUT collects one id per joined row, so `affected` counts all joined
rows.  The function commits and only logs both counts (it has no return
statement). -/
def update_final_from_snapshot (snap : List SnapRow) (final : List FinalRow) :
    List FinalRow × Nat × Nat :=
  let toFix := (final.filter (fun d =>
      match lookupSnap snap d.idFactura with
      | some s => finalDiffers d s
      | Option.none => false)).length
  let updated := final.map (syncRow snap)
  let affected := (final.filter (fun d => (lookupSnap snap d.idFactura).isSome)).length
  (updated, toFix, affected)

/-- One HTTP attempt outcome seen by call_sunat: a response (with its
decoded JSON when the body parses, and its raw text), or a
requests.RequestException. -/
inductive HttpOutcome where
  | resp (status : Nat) (json : Option PyVal) (text : String)
  | exc (desc : String)

/-- app.py safe_json: the decoded body, else a raw-text fallback dict. -/
def safe_json (json : Option PyVal) (text : String) : PyVal :=
  match json with
  | some j => j
  | Option.none => PyVal.obj [("raw", PyVal.str (pyTake text 1000))]

/-- Fields of a dict value for ** unpacking.  (Python raises TypeError on
a non-dict; error bodies that decode to non-dicts are a corner no claim
reaches.) -/
def objFieldsOf : PyVal → List (String × PyVal)
  | PyVal.obj fs => fs
  | _ => []

/-- Python dict assignment semantics: replace in place or append. -/
def dictInsert (fs : List (String × PyVal)) (k : String) (v : PyVal) :
    List (String × PyVal) :=
  if fs.any (fun p => p.1 == k) then fs.map (fun p => if p.1 == k then (k, v) else p)
  else fs ++ [(k, v)]

/-- Python dict merge as in a double-star literal: right side overrides. -/
def dictMerge (a b : List (String × PyVal)) : List (String × PyVal) :=
  b.foldl (fun acc kv => dictInsert acc kv.1 kv.2) a

/-- The non-200 failure payload of call_sunat:
a dict with the status code under "http" merged with safe_json. -/
def failPayload (status : Nat) (json : Option PyVal) (text : String) : PyVal :=
  PyVal.obj (dictMerge [("http", PyVal.int status)] (objFieldsOf (safe_json json text)))

/-- The retry loop of app.py call_sunat.  `oracle i` is the outcome of the
(i+1)-th HTTP attempt; the returned list is the sequence of backoff sleeps
(seconds) performed.  A 200 whose body fails to decode raises
requests.JSONDecodeError, a RequestException subclass (requests >= 2.27),
so it is retried like a transport error. -/
def call_sunat_go (oracle : Nat → HttpOutcome) :
    Nat → Nat → Option String → List Nat → (Bool × PyVal) × List Nat
  | 0, _, lastExc, sleeps =>
    ((false, PyVal.obj [("error", PyVal.str
        (match lastExc with | some d => d | Option.none => "unknown"))]), sleeps.reverse)
  | Nat.succ fuel, i, _lastExc, sleeps =>
    match oracle i with
    | HttpOutcome.resp status json text =>
      if status == 200 then
        match json with
        | some j => ((true, j), sleeps.reverse)
        | Option.none =>
          call_sunat_go oracle fuel (i + 1) (some ("JSONDecodeError")) (2 * (i + 1) :: sleeps)
      else ((false, failPayload status json text), sleeps.reverse)
    | HttpOutcome.exc d => call_sunat_go oracle fuel (i + 1) (some d) (2 * (i + 1) :: sleeps)

/-- call_sunat with RETRY_MAX = retryMax. -/
def call_sunat (retryMax : Nat) (oracle : Nat → HttpOutcome) : (Bool × PyVal) × List Nat :=
  call_sunat_go oracle retryMax 0 Option.none []

/-- One point of the token-acquisition search space. -/
structure TokenCombo where
  endpoint : String
  authMode : String
  scope : Option String
  deriving DecidableEq

def token_endpoints (cid : String) : List String :=
  ["https://api-seguridad.sunat.gob.pe/v1/clientessol/" ++ cid ++ "/oauth2/token/",
   "https://api-seguridad.sunat.gob.pe/v1/clientesextranet/" ++ cid ++ "/oauth2/token/"]

def token_scopes : List (Option String) :=
  [some ("https://api.sunat.gob.pe/v1/contribuyente/contribuyentes"),
   some ("https://api.sunat.gob.pe/v1/contribuyente/*"),
   Option.none]

def token_auth_modes : List String := ["basic", "body"]

/-- The nested loop order of get_token: endpoints, then auth modes, then
scopes. -/
def token_combos (cid : String) : List TokenCombo :=
  (token_endpoints cid).flatMap (fun ep =>
    token_auth_modes.flatMap (fun am =>
      token_scopes.map (fun sc => { endpoint := ep, authMode := am, scope := sc })))

/-- Outcome of one _token_try call: HTTP 200 with parsed access_token and
normalized expires_in, a non-200 response, or a RequestException. -/
inductive TryResult where
  | ok (accessToken : String) (expiresIn : Int)
  | httpFail (status : Nat) (text : String)
  | exc (desc : String)
  deriving DecidableEq

/-- Python str() of an optional string (None prints as "None"), as
interpolated into the last-error messages. -/
def pyStrOfOpt : Option String → String
  | some s => s
  | Option.none => "None"

/-- The last_err string recorded for a failed combination. -/
def tryErrText (c : TokenCombo) : TryResult → Option String
  | TryResult.ok _ _ => Option.none
  | TryResult.httpFail st text =>
    some ("[" ++ c.endpoint ++ " | auth=" ++ c.authMode ++ " | scope=" ++
      pyStrOfOpt c.scope ++ "] -> HTTP " ++ toString st ++ " - " ++ pyTake text 800)
  | TryResult.exc d =>
    some ("[" ++ c.endpoint ++ " | auth=" ++ c.authMode ++ " | scope=" ++
      pyStrOfOpt c.scope ++ "] -> excepción: " ++ d)

/-- The module-level token cache (_cached_token, _token_exp); times are
seconds as integers. -/
structure TokenState where
  cachedToken : Option String
  tokenExp : Int
  deriving DecidableEq

/-- Result of one get_token call: the returned pair or the raised
RuntimeError message, the cache state after the call, and the acquisition
attempts issued in order. -/
structure TokenOutcome where
  result : Except String (String × Int)
  state : TokenState
  attempts : List TokenCombo

/-- Python truthiness of _cached_token. -/
def tokenTruthy : Option String → Bool
  | Option.none => false
  | some s => !(s == "")

/-- The acquisition loop of get_token: try each combination in order, stop
at the first HTTP 200 (caching token and expiry), thread the last error,
and raise with the last error when the space is exhausted. -/
def get_token_go (try_ : TokenCombo → TryResult) (st : TokenState) (now : Int) :
    List TokenCombo → Option String → List TokenCombo → TokenOutcome
  | [], lastErr, attempted =>
    { result := Except.error
        ("No se pudo obtener token SUNAT. Último error: " ++ pyStrOfOpt lastErr)
      state := st
      attempts := attempted.reverse }
  | c :: rest, _lastErr, attempted =>
    match try_ c with
    | TryResult.ok tok expIn =>
      { result := Except.ok (tok, now + expIn)
        state := { cachedToken := some tok, tokenExp := now + expIn }
        attempts := (c :: attempted).reverse }
    | TryResult.httpFail s t =>
      get_token_go try_ st now rest (tryErrText c (TryResult.httpFail s t)) (c :: attempted)
    | TryResult.exc d =>
      get_token_go try_ st now rest (tryErrText c (TryResult.exc d)) (c :: attempted)

/-- app.py get_token.  `now` is the current UTC time in seconds; the
cached pair is returned untouched, with no acquisition attempt, when the
cached token is truthy and has more than 60 seconds of validity left.
The lock and the double check are a serialization device; the embedding
is the serialized behavior. -/
def get_token (cid sec : String) (st : TokenState) (now : Int)
    (try_ : TokenCombo → TryResult) : TokenOutcome :=
  if (pyStrip cid == "") || (pyStrip sec == "") then
    { result := Except.error "Faltan SUNAT_CLIENT_ID o SUNAT_CLIENT_SECRET en el .env"
      state := st
      attempts := [] }
  else if tokenTruthy st.cachedToken && decide (st.tokenExp - now > 60) then
    { result := Except.ok (st.cachedToken.getD "", st.tokenExp)
      state := st
      attempts := [] }
  else get_token_go try_ st now (token_combos (pyStrip cid)) Option.none []

/-- pyodbc text conversion of the Python message value bound into the
Mensaje columns (str passes through, None stays NULL; other shapes do not
occur in decoded payload message fields reached by any claim). -/
def msgVal : PyVal → Option String
  | PyVal.null => Option.none
  | PyVal.str s => some s
  | PyVal.bool b => some (if b then "True" else "False")
  | PyVal.int n => some (toString n)
  | PyVal.obj fs => some (pyReprOf (PyVal.obj fs))

/-- js.get("message") or js.get("mensaje") or js.get("observacion"):
Python or-chain, first truthy value, else the last value. -/
def mensajeOf (js : PyVal) : PyVal :=
  if pyTruthy (pyGet js ("message")) then pyGet js ("message")
  else if pyTruthy (pyGet js ("mensaje")) then pyGet js ("mensaje")
  else pyGet js ("observacion")

/-- One row of INH.SUNAT_VALIDACION (the append-only history). -/
structure HistRow where
  idFactura : Nat
  rucEmisor : String
  rucReceptor : String
  tipoDocumento : String
  serie : String
  numero : String
  fechaEmision : Option PyDate
  importeTotal : Option Dec
  estadoSunat : Option String
  codigoRespuesta : Option String
  mensaje : Option String
  tokenExpiraUtc : Int
  rawJson : String
  deriving DecidableEq

/-- The history row insert_hist builds for one item. -/
def histRowOf (r : QueueRow) (tokenExp : Int) (js : PyVal) : HistRow :=
  { idFactura := r.idFactura
    rucEmisor := r.rucEmisor
    rucReceptor := r.rucReceptor
    tipoDocumento := r.tipoDocumento
    serie := r.serie
    numero := r.numero
    fechaEmision := r.fechaEmision
    importeTotal := r.importeTotal
    estadoSunat := (map_estado js).1
    codigoRespuesta := (map_estado js).2.2
    mensaje := msgVal (mensajeOf js)
    tokenExpiraUtc := tokenExp
    rawJson := pyJsonDump js }

/-- The tuple insert_hist returns for downstream reconciliation:
(estado_txt, estado_desc, codigo_respuesta, mensaje). -/
def histMappedOf (js : PyVal) :
    Option String × Option String × Option String × Option String :=
  ((map_estado js).1, (map_estado js).2.1, (map_estado js).2.2, msgVal (mensajeOf js))

/-- The three mutated tables as seen by one connection. -/
structure BatchDB where
  queue : List QueueRow
  hist : List HistRow
  snap : List SnapRow
  deriving DecidableEq

/-- A transactional connection: the durable state and the uncommitted
draft.  cnx.commit() makes the draft durable; cnx.rollback() discards
it. -/
structure Cnx where
  committed : BatchDB
  draft : BatchDB
  deriving DecidableEq

def commitCnx (c : Cnx) : Cnx := { committed := c.draft, draft := c.draft }

def rollbackCnx (c : Cnx) : Cnx := { committed := c.committed, draft := c.committed }

/-- UPDATE {queue} SET Status=?, LastError=? WHERE IdQueue=?. -/
def set_queue_status (q : List QueueRow) (idq : Nat) (st : QStatus) (le : Option String) :
    List QueueRow :=
  q.map (fun r => if r.idQueue == idq then { r with status := st, lastError := le } else r)

/-- The error payload handed to mark_error. -/
inductive ErrInfo where
  | dict (v : PyVal)
  | exc (desc : String)

/-- app.py mark_error text normalization: dicts are JSON-dumped and
truncated, everything is stringified and truncated to 3900. -/
def mark_error_text : ErrInfo → String
  | ErrInfo.dict v => pyTake (pyTake (pyJsonDump v) 3900) 3900
  | ErrInfo.exc d => pyTake d 3900

def mark_error_q (q : List QueueRow) (idq : Nat) (e : ErrInfo) : List QueueRow :=
  set_queue_status q idq QStatus.error (some (mark_error_text e))

def mark_done_q (q : List QueueRow) (idq : Nat) : List QueueRow :=
  set_queue_status q idq QStatus.done Option.none

/-- Draft after the history insert for one item. -/
def item_after_hist (db : BatchDB) (r : QueueRow) (tokenExp : Int) (js : PyVal) : BatchDB :=
  { db with hist := db.hist ++ [histRowOf r tokenExp js] }

/-- Draft after history insert and snapshot upsert (the upsert reads the
same connection, so it sees the drafted history but the prior snapshot). -/
def item_after_snap (db : BatchDB) (r : QueueRow) (tokenExp : Int) (js : PyVal) (now : Nat) :
    BatchDB :=
  let m := histMappedOf js
  { item_after_hist db r tokenExp js with
    snap := upsert_snapshot db.snap r m.1 m.2.1 m.2.2.1 m.2.2.2 now }

/-- Draft after the full per-item write sequence:
history insert, snapshot upsert, then mark_done on a successful call or
mark_error with the failure payload otherwise. -/
def item_writes (db : BatchDB) (r : QueueRow) (ok : Bool) (js : PyVal)
    (tokenExp : Int) (now : Nat) : BatchDB :=
  { item_after_snap db r tokenExp js now with
    queue :=
      if ok then mark_done_q db.queue r.idQueue
      else mark_error_q db.queue r.idQueue (ErrInfo.dict js) }

/-- Draft after the first k statements of the per-item sequence (k = 0
none, 1 history, 2 history+snapshot, >= 3 all, the last covering a fault
in commit itself). -/
def item_steps (db : BatchDB) (r : QueueRow) (ok : Bool) (js : PyVal)
    (tokenExp : Int) (now : Nat) : Nat → BatchDB
  | 0 => db
  | 1 => item_after_hist db r tokenExp js
  | 2 => item_after_snap db r tokenExp js now
  | _ => item_writes db r ok js tokenExp now

/-- One iteration of the as_completed loop in process_batch.  `fault`
models a persistence exception: `some (k, desc)` means the sequence raised
while executing statement k, with str(e) = desc; the writes drafted so far
are rolled back, the item is marked error, and that mark is committed.
With no fault the whole sequence is committed as one unit. -/
def processItem (c : Cnx) (r : QueueRow) (ok : Bool) (js : PyVal)
    (tokenExp : Int) (now : Nat) (fault : Option (Nat × String)) : Cnx :=
  match fault with
  | Option.none =>
    commitCnx { c with draft := item_writes c.draft r ok js tokenExp now }
  | some kd =>
    let cFailed : Cnx := { c with draft := item_steps c.draft r ok js tokenExp now kd.1 }
    let cRolled := rollbackCnx cFailed
    commitCnx { cRolled with draft :=
      { cRolled.draft with queue := mark_error_q cRolled.draft.queue r.idQueue (ErrInfo.exc kd.2) } }

/-- One claimed item together with its validation outcome and its
persistence fault, if any. -/
structure ItemRun where
  row : QueueRow
  ok : Bool
  js : PyVal
  fault : Option (Nat × String)

/-- The as_completed loop over the settled items, in completion order. -/
def process_batch_loop (tokenExp : Int) (now : Nat) : Cnx → List ItemRun → Cnx
  | c, [] => c
  | c, it :: rest =>
    process_batch_loop tokenExp now (processItem c it.row it.ok it.js tokenExp now it.fault) rest

/-- The queued→processing transition applied by the claim UPDATE. -/
def claimXform (r : QueueRow) : QueueRow :=
  { r with status := QStatus.processing, attempts := r.attempts + 1 }

/-- Insert into a list sorted by enqueue time (kernel-computable;
SQL leaves the order of ties unspecified). -/
def insertByEnqueued (r : QueueRow) : List QueueRow → List QueueRow
  | [] => [r]
  | x :: xs => if x.enqueuedAt ≤ r.enqueuedAt then x :: insertByEnqueued r xs else r :: x :: xs

/-- ORDER BY EnqueuedAt: insertion sort over the claimable rows. -/
def sortByEnqueued : List QueueRow → List QueueRow
  | [] => []
  | x :: xs => insertByEnqueued x (sortByEnqueued xs)

/-- app.py fetch_batch: one atomic UPDATE claiming the oldest n queued
rows (READPAST: rows locked by a concurrent claimer are invisible, which
the atomic-step model renders as claims applying in some serial order),
setting them processing, incrementing attempts, and returning the
post-transition values.  Returns (claimed rows, queue after). -/
def fetch_batch (q : List QueueRow) (n : Nat) : List QueueRow × List QueueRow :=
  let sel := (sortByEnqueued (q.filter (fun r => r.status == QStatus.queued))).take n
  let ids := sel.map (fun r => r.idQueue)
  (sel.map claimXform,
   q.map (fun r => if ids.contains r.idQueue then claimXform r else r))

/-- A sequence of claim operations against the same queue, each one atomic
(the serialized view of N concurrent claimers). -/
def claim_seq (q : List QueueRow) : List Nat → List (List QueueRow) × List QueueRow
  | [] => ([], q)
  | n :: ns =>
    let step := fetch_batch q n
    let rest := claim_seq step.2 ns
    (step.1 :: rest.1, rest.2)

/-- Queue status and error text observable for a queue id. -/
def qstatus (q : List QueueRow) (idq : Nat) : Option (QStatus × Option String) :=
  (q.find? (fun r => r.idQueue == idq)).map (fun r => (r.status, r.lastError))

/-- Bundle one claimed row with its validation outcome and persistence
fault. -/
def mkItemRun (outcome : QueueRow → Bool × PyVal × Option (Nat × String))
    (r : QueueRow) : ItemRun :=
  { row := r
    ok := (outcome r).1
    js := (outcome r).2.1
    fault := (outcome r).2.2 }

/-- One full batch cycle after token acquisition: claim up to n rows, run
the validation outcome per item, and run the per-item persistence loop.
`outcome r` is (ok, payload, fault) for claimed row r.  Final Sync runs
after this loop and touches no queue column. -/
def run_cycle (db : BatchDB) (n : Nat)
    (outcome : QueueRow → Bool × PyVal × Option (Nat × String))
    (tokenExp : Int) (now : Nat) : List QueueRow × Cnx :=
  let step := fetch_batch db.queue n
  let db2 : BatchDB := { db with queue := step.2 }
  (step.1,
   process_batch_loop tokenExp now { committed := db2, draft := db2 }
     (step.1.map (mkItemRun outcome)))

/-- The terminal queue record each settled item must show. -/
def itemFinalStatus (it : ItemRun) : QStatus × Option String :=
  match it.fault with
  | some kd => (QStatus.error, some (pyTake kd.2 3900))
  | Option.none =>
    if it.ok then (QStatus.done, Option.none)
    else (QStatus.error, some (mark_error_text (ErrInfo.dict it.js)))

/-- A concrete queue row used by the witness theorems. -/
def sampleRow (tot : Option Dec) : QueueRow :=
  { idQueue := 1
    idFactura := 100
    rucEmisor := "20123456789"
    rucReceptor := "20100113610"
    tipoDocumento := "01"
    serie := "F001"
    numero := "123"
    fechaEmision := some { year := 2024, month := 1, day := 15 }
    importeTotal := tot
    status := QStatus.processing
    attempts := 1
    lastError := Option.none
    enqueuedAt := 0 }

/-- A concrete snapshot row used by the witness theorems. -/
def snapSample : SnapRow :=
  { idFactura := 100
    rucEmisor := "20123456789"
    rucReceptor := "20100113610"
    tipoDocumento := "01"
    serie := "F001"
    numero := "123"
    importeTotal := Option.none
    estadoActual := some ("ACEPTADO")
    estadoDescripcion := some ("ACEPTADO (1)")
    codigoRespuesta := some ("1")
    mensaje := Option.none
    fechaPrimeraConsulta := 5
    fechaUltimaConsulta := 6
    fechaUltimoCambio := 5
    cambioEstado := false }

/-- A snapshot row for the Final Sync counterexample. -/
def snapCex : SnapRow :=
  { snapSample with
    idFactura := 7
    fechaPrimeraConsulta := 1
    fechaUltimaConsulta := 2
    fechaUltimoCambio := 1 }

/-- A final row already byte-identical to the mirror of snapCex: no
mirrored column differs. -/
def finalCex : FinalRow :=
  { idFactura := 7
    estadoSunatUlt := some ("ACEPTADO")
    estadoSunatDescripcion := some ("ACEPTADO (1)")
    sunatCodigoRespuesta := some ("1")
    sunatMensaje := Option.none
    sunatCambioEstado := some false
    sunatFechaPrimera := some 1
    sunatFechaUltima := some 2
    sunatFechaCambio := some 1 }

/-- True when a _token_try outcome is not an HTTP 200. -/
def tryFailed : TryResult → Bool
  | TryResult.ok _ _ => false
  | TryResult.httpFail _ _ => true
  | TryResult.exc _ => true

/-- The last combination of the token search space for a given client
id. -/
def tokenLastCombo (cid : String) : TokenCombo :=
  { endpoint := "https://api-seguridad.sunat.gob.pe/v1/clientesextranet/" ++ cid ++ "/oauth2/token/"
    authMode := "body"
    scope := Option.none }

/-- Witness oracle: every validation attempt raises a transport
exception. -/
def w6_d (i : Nat) : String := "boom" ++ toString i

def w6_oracle (i : Nat) : HttpOutcome := HttpOutcome.exc (w6_d i)

/-- Witness oracle: every token combination fails with HTTP 400. -/
def wTokenFail : TokenCombo → TryResult := fun _ => TryResult.httpFail 400 ("bad")

/-- The queue ids of a list of rows. -/
def idsQ (l : List QueueRow) : List Nat := l.map (fun r => r.idQueue)

/-- The invoice ids of a list of rows. -/
def idsF (l : List QueueRow) : List Nat := l.map (fun r => r.idFactura)

/-- The queue ids still claimable. -/
def queuedIds (q : List QueueRow) : List Nat :=
  idsQ (q.filter (fun r => r.status == QStatus.queued))

/-- The history rows recorded for one invoice id. -/
def histFor (hist : List HistRow) (x : Nat) : List HistRow :=
  hist.filter (fun h => h.idFactura == x)

/-- A three-row queue used by the claim witnesses. -/
def wqRow (idq idf t : Nat) : QueueRow :=
  { sampleRow Option.none with
    idQueue := idq
    idFactura := idf
    status := QStatus.queued
    attempts := 0
    enqueuedAt := t }

def wq : List QueueRow :=
  [wqRow 1 100 3, wqRow 2 200 1, wqRow 3 300 2]

/-- A two-row database used by the batch witnesses; both rows are already
claimed (processing). -/
def wpRow (idq idf : Nat) : QueueRow :=
  { sampleRow Option.none with
    idQueue := idq
    idFactura := idf }

def wdb : BatchDB :=
  { queue := [wpRow 1 100, wpRow 2 200]
    hist := []
    snap := [] }

/-- Witness item whose persistence sequence faults at the snapshot write. -/
def wit1 : ItemRun :=
  { row := wpRow 1 100
    ok := true
    js := PyVal.obj [("data", PyVal.obj [("estadoCp", PyVal.int 1)])]
    fault := some (1, "boom") }

/-- Witness item that settles normally. -/
def wit2 : ItemRun :=
  { row := wpRow 2 200
    ok := true
    js := PyVal.obj [("data", PyVal.obj [("estadoCp", PyVal.int 3)])]
    fault := Option.none }

/-- Witness outcome map for the cycle witness: row 1 validates, row 2
fails validation, row 3 faults during persistence. -/
def wOutcome (r : QueueRow) : Bool × PyVal × Option (Nat × String) :=
  if r.idQueue == 1 then (true, PyVal.obj [("data", PyVal.obj [("estadoCp", PyVal.int 3)])], Option.none)
  else if r.idQueue == 2 then (false, PyVal.obj [("http", PyVal.int 500)], Option.none)
  else (true, PyVal.obj [], some (0, "db down"))

/-- The cycle-witness database: three queued rows, empty history and
snapshot. -/
def wcdb : BatchDB := { queue := wq, hist := [], snap := [] }

/-
-------------------------------------------------------------------------
Theorems
-------------------------------------------------------------------------
-/

/-- C4: map_estado is total and pure: a catalog code yields the fixed
catalog pair, any other non-null code s yields the synthetic
(CODE_s, NO_MAPEADO (s)) pair, a missing or null code (including a
non-dict payload, which makes estadoCpOf return none) yields all-null, and
code 3 concretely yields the AUTORIZADO pair.  Totality (never raises) is
the totality of the Lean function itself. -/
theorem map_estado_spec (js : PyVal) :
    (estadoCpOf js = Option.none → map_estado js = (Option.none, Option.none, Option.none)) ∧
    (∀ s nd, estadoCpOf js = some s → catalogo.lookup s = some nd →
      map_estado js = (some nd.1, some nd.2, some s)) ∧
    (∀ s, estadoCpOf js = some s → catalogo.lookup s = Option.none →
      map_estado js = (some ("CODE_" ++ s), some ("NO_MAPEADO (" ++ s ++ ")"), some s)) ∧
    map_estado (PyVal.obj [("data", PyVal.obj [("estadoCp", PyVal.int 3)])])
      = (some ("AUTORIZADO"), some ("AUTORIZADO (3)"), some ("3")) := by
  refine ⟨fun h => ?_, fun s nd h1 h2 => ?_, fun s h1 h2 => ?_, by decide⟩
  · simp only [map_estado, h]
  · simp only [map_estado, h1, h2]
  · simp only [map_estado, h1, h2]

/-- Witness for C4 at concrete payloads: a non-dict payload and an
unknown code 99. -/
theorem map_estado_spec_witness :
    map_estado (PyVal.str ("hola")) = (Option.none, Option.none, Option.none) ∧
    map_estado (PyVal.obj [("data", PyVal.obj [("estadoCp", PyVal.int 99)])])
      = (some ("CODE_" ++ "99"), some ("NO_MAPEADO (" ++ "99" ++ ")"), some ("99")) :=
  ⟨(map_estado_spec (PyVal.str ("hola"))).1 (by decide),
   (map_estado_spec (PyVal.obj [("data", PyVal.obj [("estadoCp", PyVal.int 99)])])).2.2.1
     ("99") (by decide) (by decide)⟩

/-- C5: the serialized money amount is a fixed two-decimal round-half-up
rendering: None serializes to "0.00", 1234.5 to "1234.50", and 1.005 to
"1.01" (half-up, where half-even would give "1.00"); in general the monto
field is the two-decimal rendering of the half-up-quantized amount. -/
theorem to_body_postman_monto_spec (r : QueueRow) :
    (r.importeTotal = Option.none → (to_body_postman r).monto = "0.00") ∧
    (r.importeTotal = some { mant := 12345, exp := 1 } → (to_body_postman r).monto = "1234.50") ∧
    (r.importeTotal = some { mant := 1005, exp := 3 } → (to_body_postman r).monto = "1.01") ∧
    (∀ d, r.importeTotal = some d →
      (to_body_postman r).monto = format2 (quantize2HalfUp d)) := by
  refine ⟨fun h => ?_, fun h => ?_, fun h => ?_, fun d h => ?_⟩ <;>
    simp only [to_body_postman, h] <;> decide

/-- Witness for C5 at the three concrete amounts of the claim. -/
theorem to_body_postman_monto_witness :
    (to_body_postman (sampleRow Option.none)).monto = "0.00" ∧
    (to_body_postman (sampleRow (some { mant := 12345, exp := 1 }))).monto = "1234.50" ∧
    (to_body_postman (sampleRow (some { mant := 1005, exp := 3 }))).monto = "1.01" :=
  ⟨(to_body_postman_monto_spec (sampleRow Option.none)).1 rfl,
   (to_body_postman_monto_spec (sampleRow (some { mant := 12345, exp := 1 }))).2.1 rfl,
   (to_body_postman_monto_spec (sampleRow (some { mant := 1005, exp := 3 }))).2.2.1 rfl⟩

/-- Looking up the updated id after an UPDATE ... WHERE IdFactura=?
finds the image of the previously found row, provided the rewrite
preserves the id. -/
theorem lookupSnap_updWhere (snap : List SnapRow) (idf : Nat) (g : SnapRow → SnapRow)
    (hg : ∀ s, s.idFactura = idf → (g s).idFactura = s.idFactura) :
    lookupSnap (updWhere snap idf g) idf = (lookupSnap snap idf).map g := by
  unfold lookupSnap updWhere
  rw [List.find?_map]
  have hpred : ((fun s : SnapRow => s.idFactura == idf) ∘
      (fun s => if s.idFactura == idf then g s else s)) = (fun s => s.idFactura == idf) := by
    funext s
    by_cases h : s.idFactura = idf
    · simp [h, hg s h]
    · simp [h]
  rw [hpred]
  cases hf : List.find? (fun s => s.idFactura == idf) snap with
  | none => rfl
  | some s =>
    have hs : s.idFactura = idf := by simpa using List.find?_some hf
    simp [hs]

/-- Appending rows cannot shadow an id absent from the front of the
table. -/
theorem lookupSnap_append_of_none (l1 l2 : List SnapRow) (idf : Nat)
    (h : lookupSnap l1 idf = Option.none) :
    lookupSnap (l1 ++ l2) idf = lookupSnap l2 idf := by
  unfold lookupSnap at *
  rw [List.find?_append, h]
  rfl

/-- C2: reconciling an invoice that already has a snapshot row takes the
changed branch (status fields, last-query = now, last-change = now, flag
true) exactly when the (statusText, statusDescription) pair differs from
the stored pair under null-to-empty normalized string equality, and the
unchanged branch (only response code, message, last-query = now, flag
false) exactly when the pair is identical.  The two complete row frames
give the claimed iff for the flag and the last-change timestamp. -/
theorem upsert_snapshot_change_detection
    (snap : List SnapRow) (r : QueueRow) (etxt edesc cod msg : Option String)
    (now : Nat) (prev : SnapRow)
    (hprev : lookupSnap snap r.idFactura = some prev) :
    ∃ cur, lookupSnap (upsert_snapshot snap r etxt edesc cod msg now) r.idFactura = some cur ∧
      ((orEmpty prev.estadoActual ≠ orEmpty etxt ∨ orEmpty prev.estadoDescripcion ≠ orEmpty edesc) →
        cur = { prev with
                estadoActual := etxt
                estadoDescripcion := edesc
                codigoRespuesta := cod
                mensaje := msg
                fechaUltimaConsulta := now
                fechaUltimoCambio := now
                cambioEstado := true }) ∧
      ((orEmpty prev.estadoActual = orEmpty etxt ∧ orEmpty prev.estadoDescripcion = orEmpty edesc) →
        cur = { prev with
                codigoRespuesta := cod
                mensaje := msg
                fechaUltimaConsulta := now
                cambioEstado := false }) := by
  simp only [upsert_snapshot, hprev]
  by_cases hc : orEmpty prev.estadoActual = orEmpty etxt ∧ orEmpty prev.estadoDescripcion = orEmpty edesc
  · have hb : ((orEmpty prev.estadoActual != orEmpty etxt) ||
        (orEmpty prev.estadoDescripcion != orEmpty edesc)) = false := by
      simp [bne, hc.1, hc.2]
    rw [hb]
    simp only [Bool.false_eq_true, if_false]
    refine ⟨{ prev with
              codigoRespuesta := cod
              mensaje := msg
              fechaUltimaConsulta := now
              cambioEstado := false }, ?_, ?_, ?_⟩
    · rw [lookupSnap_updWhere snap r.idFactura (snapUnchangedUpd cod msg now) (fun s _ => rfl),
        hprev]
      rfl
    · intro hdiff
      rcases hdiff with hd | hd
      · exact absurd hc.1 hd
      · exact absurd hc.2 hd
    · intro _
      rfl
  · have hb : ((orEmpty prev.estadoActual != orEmpty etxt) ||
        (orEmpty prev.estadoDescripcion != orEmpty edesc)) = true := by
      rcases not_and_or.mp hc with hd | hd <;> simp [bne, hd]
    rw [hb]
    simp only [if_true]
    refine ⟨{ prev with
              estadoActual := etxt
              estadoDescripcion := edesc
              codigoRespuesta := cod
              mensaje := msg
              fechaUltimaConsulta := now
              fechaUltimoCambio := now
              cambioEstado := true }, ?_, ?_, ?_⟩
    · rw [lookupSnap_updWhere snap r.idFactura (snapChangedUpd etxt edesc cod msg now)
        (fun s _ => rfl), hprev]
      rfl
    · intro _
      rfl
    · intro hsame
      exact absurd hsame hc

/-- Witness for C2: a concrete table with a stored ACEPTADO pair
reconciled against an ANULADO pair. -/
theorem upsert_snapshot_change_detection_witness :
    ∃ cur, lookupSnap (upsert_snapshot [snapSample] (sampleRow Option.none)
        (some ("ANULADO")) (some ("ANULADO (2)")) (some ("2")) Option.none 9) 100 = some cur ∧
      ((orEmpty snapSample.estadoActual ≠ orEmpty (some ("ANULADO")) ∨
        orEmpty snapSample.estadoDescripcion ≠ orEmpty (some ("ANULADO (2)"))) →
        cur = { snapSample with
                estadoActual := some ("ANULADO")
                estadoDescripcion := some ("ANULADO (2)")
                codigoRespuesta := some ("2")
                mensaje := Option.none
                fechaUltimaConsulta := 9
                fechaUltimoCambio := 9
                cambioEstado := true }) ∧
      ((orEmpty snapSample.estadoActual = orEmpty (some ("ANULADO")) ∧
        orEmpty snapSample.estadoDescripcion = orEmpty (some ("ANULADO (2)"))) →
        cur = { snapSample with
                codigoRespuesta := some ("2")
                mensaje := Option.none
                fechaUltimaConsulta := 9
                cambioEstado := false }) :=
  upsert_snapshot_change_detection [snapSample] (sampleRow Option.none)
    (some ("ANULADO")) (some ("ANULADO (2)")) (some ("2")) Option.none 9 snapSample (by decide)

/-- Both UPDATE branches of upsert_snapshot leave Fecha_Primera_Consulta
as it was on the found row. -/
theorem upsert_preserves_fecha_primera
    (snap : List SnapRow) (r : QueueRow) (e d c m : Option String) (t : Nat)
    (prev : SnapRow) (hprev : lookupSnap snap r.idFactura = some prev) :
    ∀ cur, lookupSnap (upsert_snapshot snap r e d c m t) r.idFactura = some cur →
      cur.fechaPrimeraConsulta = prev.fechaPrimeraConsulta := by
  intro cur hcur
  simp only [upsert_snapshot, hprev] at hcur
  by_cases hb : ((orEmpty prev.estadoActual != orEmpty e) ||
      (orEmpty prev.estadoDescripcion != orEmpty d)) = true
  · rw [hb] at hcur
    simp only [if_true] at hcur
    rw [lookupSnap_updWhere snap r.idFactura (snapChangedUpd e d c m t) (fun s _ => rfl),
      hprev] at hcur
    cases hcur
    rfl
  · rw [Bool.not_eq_true] at hb
    rw [hb] at hcur
    simp only [Bool.false_eq_true, if_false] at hcur
    rw [lookupSnap_updWhere snap r.idFactura (snapUnchangedUpd c m t) (fun s _ => rfl),
      hprev] at hcur
    cases hcur
    rfl

/-- C3: the first-query timestamp is written once: any reconciliation of
an invoice id that already has a snapshot row leaves
Fecha_Primera_Consulta untouched (neither UPDATE branch assigns it), and
after an initial insert at time t0 a second reconciliation still shows
t0. -/
theorem fecha_primera_immutable
    (snap : List SnapRow) (r : QueueRow) (e1 d1 c1 m1 e2 d2 c2 m2 : Option String)
    (t0 t1 : Nat) :
    (∀ prev, lookupSnap snap r.idFactura = some prev →
      ∀ cur, lookupSnap (upsert_snapshot snap r e1 d1 c1 m1 t1) r.idFactura = some cur →
        cur.fechaPrimeraConsulta = prev.fechaPrimeraConsulta) ∧
    (lookupSnap snap r.idFactura = Option.none →
      ∀ cur, lookupSnap (upsert_snapshot (upsert_snapshot snap r e1 d1 c1 m1 t0) r e2 d2 c2 m2 t1)
          r.idFactura = some cur →
        cur.fechaPrimeraConsulta = t0) := by
  constructor
  · exact fun prev hprev => upsert_preserves_fecha_primera snap r e1 d1 c1 m1 t1 prev hprev
  · intro hnone cur hcur
    have hfirst : upsert_snapshot snap r e1 d1 c1 m1 t0 =
        snap ++ [snapInsertRow r e1 d1 c1 m1 t0] := by
      simp only [upsert_snapshot, hnone]
    have hlook : lookupSnap (upsert_snapshot snap r e1 d1 c1 m1 t0) r.idFactura =
        some (snapInsertRow r e1 d1 c1 m1 t0) := by
      rw [hfirst, lookupSnap_append_of_none snap _ r.idFactura hnone]
      simp [lookupSnap, List.find?, snapInsertRow]
    exact upsert_preserves_fecha_primera _ r e2 d2 c2 m2 t1 _ hlook cur hcur

/-- Witness for C3: inserting at time 5 and reconciling again at time 9
keeps first-query = 5. -/
theorem fecha_primera_immutable_witness :
    (lookupSnap (upsert_snapshot (upsert_snapshot [] (sampleRow Option.none) (some ("A"))
        Option.none Option.none Option.none 5) (sampleRow Option.none) (some ("B"))
        Option.none Option.none Option.none 9) 100).map SnapRow.fechaPrimeraConsulta
      = some 5 := by
  have h := (fecha_primera_immutable [] (sampleRow Option.none) (some ("A")) Option.none
      Option.none Option.none (some ("B")) Option.none Option.none Option.none 5 9).2 rfl
  cases heq : lookupSnap (upsert_snapshot (upsert_snapshot [] (sampleRow Option.none) (some ("A"))
      Option.none Option.none Option.none 5) (sampleRow Option.none) (some ("B"))
      Option.none Option.none Option.none 9) 100 with
  | none => exact absurd heq (by decide)
  | some cur => simp [h cur heq]

/-- The step-2 SET clause is idempotent on a single row. -/
theorem updateFinalRow_idem (d : FinalRow) (s : SnapRow) :
    updateFinalRow (updateFinalRow d s) s = updateFinalRow d s := by
  unfold updateFinalRow
  cases hfp : d.sunatFechaPrimera <;> cases hc : s.cambioEstado <;> simp

/-- syncRow preserves the join key. -/
theorem syncRow_idFactura (snap : List SnapRow) (d : FinalRow) :
    (syncRow snap d).idFactura = d.idFactura := by
  unfold syncRow
  cases lookupSnap snap d.idFactura <;> rfl

/-- syncRow is idempotent. -/
theorem syncRow_idem (snap : List SnapRow) (d : FinalRow) :
    syncRow snap (syncRow snap d) = syncRow snap d := by
  unfold syncRow
  cases h : lookupSnap snap d.idFactura with
  | none => simp [h]
  | some s =>
    have hid : (updateFinalRow d s).idFactura = d.idFactura := rfl
    simp [hid, h, updateFinalRow_idem]

/-- Counterexample to C1 as stated: a final row already byte-identical to
the mirror of its snapshot row.  Running Final Sync twice with no
intervening snapshot change, the second run still reports affected = 1
(the join size), not 0, even though its own diagnostic count says 0 rows
differ: the UPDATE is not diff-driven. -/
theorem sync_final_cex :
    (update_final_from_snapshot [snapCex]
        (update_final_from_snapshot [snapCex] [finalCex]).1).2.1 = 0 ∧
    (update_final_from_snapshot [snapCex]
        (update_final_from_snapshot [snapCex] [finalCex]).1).2.2 = 1 ∧
    ¬ (update_final_from_snapshot [snapCex]
        (update_final_from_snapshot [snapCex] [finalCex]).1).2.2 = 0 := by
  refine ⟨by decide, by decide, by decide⟩

/-- C1 (amended): Final Sync updates every FinalRecord row joined by
invoice id to a StateSnapshot row, unconditionally; the affected count it
reports equals the number of joined rows.  It is idempotent in state — a
second call with no intervening snapshot change rewrites the same values
and leaves the final table unchanged — but the second call reports the
same join count again, not 0. -/
theorem sync_final_idempotent (snap : List SnapRow) (final : List FinalRow) :
    (update_final_from_snapshot snap (update_final_from_snapshot snap final).1).1
      = (update_final_from_snapshot snap final).1 ∧
    (update_final_from_snapshot snap final).2.2
      = (final.filter (fun d => (lookupSnap snap d.idFactura).isSome)).length ∧
    (update_final_from_snapshot snap (update_final_from_snapshot snap final).1).2.2
      = (update_final_from_snapshot snap final).2.2 := by
  refine ⟨?_, rfl, ?_⟩
  · show (final.map (syncRow snap)).map (syncRow snap) = final.map (syncRow snap)
    rw [List.map_map]
    apply List.map_congr_left
    intro d _
    exact syncRow_idem snap d
  · show ((final.map (syncRow snap)).filter
        (fun d => (lookupSnap snap d.idFactura).isSome)).length
      = (final.filter (fun d => (lookupSnap snap d.idFactura).isSome)).length
    rw [List.filter_map]
    rw [List.length_map]
    congr 1
    apply List.filter_congr
    intro d _
    simp [Function.comp, syncRow_idFactura]

/-- Rearranging one accumulated backoff sleep into the mapped range of
sleeps for the remaining attempts. -/
theorem sleep_range_shift (i n : Nat) :
    2 * (i + 1) :: (List.range n).map (fun j => 2 * (i + 1 + j + 1))
      = (List.range (n + 1)).map (fun j => 2 * (i + j + 1)) := by
  rw [List.range_succ_eq_map, List.map_cons, List.map_map]
  have h2 : (List.range n).map (fun j => 2 * (i + 1 + j + 1))
      = (List.range n).map ((fun j => 2 * (i + j + 1)) ∘ Nat.succ) := by
    apply List.map_congr_left
    intro j _
    simp only [Function.comp_apply]
    omega
  rw [h2]

/-- Exhausting the retry loop on transport exceptions: the loop sleeps
2·(attempt number) after every failed attempt and finally reports the last
exception description. -/
theorem call_sunat_go_all_exc (oracle : Nat → HttpOutcome) (d : Nat → String) :
    ∀ fuel i lastExc sleeps, 0 < fuel →
      (∀ j, j < fuel → oracle (i + j) = HttpOutcome.exc (d (i + j))) →
      call_sunat_go oracle fuel i lastExc sleeps =
        ((false, PyVal.obj [("error", PyVal.str (d (i + fuel - 1)))]),
         sleeps.reverse ++ (List.range fuel).map (fun j => 2 * (i + j + 1))) := by
  intro fuel
  induction fuel with
  | zero => intro i lastExc sleeps h0; omega
  | succ fuel ih =>
    intro i lastExc sleeps _ hexc
    have h0 : oracle i = HttpOutcome.exc (d i) := by
      have := hexc 0 (Nat.succ_pos fuel)
      simpa using this
    cases fuel with
    | zero =>
      simp [call_sunat_go, h0, List.range_succ]
    | succ fuel2 =>
      have step : call_sunat_go oracle (fuel2 + 1 + 1) i lastExc sleeps =
          call_sunat_go oracle (fuel2 + 1) (i + 1) (some (d i)) (2 * (i + 1) :: sleeps) := by
        simp [call_sunat_go, h0]
      rw [step]
      rw [ih (i + 1) (some (d i)) (2 * (i + 1) :: sleeps) (Nat.succ_pos fuel2)
        (fun j hj => by
          have := hexc (j + 1) (by omega)
          have harg : i + (j + 1) = i + 1 + j := by omega
          rw [harg] at this
          exact this)]
      have hidx : i + 1 + (fuel2 + 1) - 1 = i + (fuel2 + 1 + 1) - 1 := by omega
      rw [hidx]
      rw [List.reverse_cons, List.append_assoc, List.singleton_append, sleep_range_shift]

/-- A run of k transport exceptions followed by an HTTP 200 with a
decodable body: the loop returns success with that body after k backoff
sleeps. -/
theorem call_sunat_go_exc_then_ok (oracle : Nat → HttpOutcome) (d : Nat → String)
    (b : PyVal) (t : String) :
    ∀ k fuel i lastExc sleeps, k < fuel →
      (∀ j, j < k → oracle (i + j) = HttpOutcome.exc (d (i + j))) →
      oracle (i + k) = HttpOutcome.resp 200 (some b) t →
      call_sunat_go oracle fuel i lastExc sleeps =
        ((true, b), sleeps.reverse ++ (List.range k).map (fun j => 2 * (i + j + 1))) := by
  intro k
  induction k with
  | zero =>
    intro fuel i lastExc sleeps hk _ hok
    cases fuel with
    | zero => omega
    | succ fuel =>
      rw [Nat.add_zero] at hok
      simp [call_sunat_go, hok]
  | succ k ih =>
    intro fuel i lastExc sleeps hk hexc hok
    cases fuel with
    | zero => omega
    | succ fuel =>
      have h0 : oracle i = HttpOutcome.exc (d i) := by
        have := hexc 0 (Nat.succ_pos k)
        simpa using this
      have step : call_sunat_go oracle (fuel + 1) i lastExc sleeps =
          call_sunat_go oracle fuel (i + 1) (some (d i)) (2 * (i + 1) :: sleeps) := by
        simp [call_sunat_go, h0]
      rw [step]
      rw [ih fuel (i + 1) (some (d i)) (2 * (i + 1) :: sleeps) (by omega)
        (fun j hj => by
          have := hexc (j + 1) (by omega)
          have harg : i + (j + 1) = i + 1 + j := by omega
          rw [harg] at this
          exact this)
        (by
          have harg : i + (k + 1) = i + 1 + k := by omega
          rw [harg] at hok
          exact hok)]
      rw [List.reverse_cons, List.append_assoc, List.singleton_append, sleep_range_shift]

/-- C6: call_sunat returns success with the decoded body exactly on HTTP
200 (first conjunct: immediately; fourth: after k retried transport
exceptions, with backoff sleeps 2, 4, ..., 2k); any non-200 response
yields the failure payload carrying the status code and the decoded or
raw-text-fallback body with no further attempts (second conjunct, no
sleeps); transport exceptions are retried up to RETRY_MAX total attempts
with backoff 2·attempt-number, after which the failure payload carries the
last exception description (third conjunct). -/
theorem call_sunat_spec (R : Nat) (oracle : Nat → HttpOutcome) (hR : 0 < R) :
    (∀ b t, oracle 0 = HttpOutcome.resp 200 (some b) t →
      call_sunat R oracle = ((true, b), [])) ∧
    (∀ s jb t, oracle 0 = HttpOutcome.resp s jb t → s ≠ 200 →
      call_sunat R oracle = ((false, failPayload s jb t), [])) ∧
    (∀ d : Nat → String, (∀ i, i < R → oracle i = HttpOutcome.exc (d i)) →
      call_sunat R oracle =
        ((false, PyVal.obj [("error", PyVal.str (d (R - 1)))]),
         (List.range R).map (fun j => 2 * (j + 1)))) ∧
    (∀ k b t (d : Nat → String), k < R →
      (∀ i, i < k → oracle i = HttpOutcome.exc (d i)) →
      oracle k = HttpOutcome.resp 200 (some b) t →
      call_sunat R oracle =
        ((true, b), (List.range k).map (fun j => 2 * (j + 1)))) := by
  refine ⟨fun b t h => ?_, fun s jb t h hs => ?_, fun d hexc => ?_, fun k b t d hk hexc hok => ?_⟩
  · cases R with
    | zero => omega
    | succ n => simp [call_sunat, call_sunat_go, h]
  · have hb : (s == 200) = false := by simpa using hs
    cases R with
    | zero => omega
    | succ n => simp [call_sunat, call_sunat_go, h, hb]
  · have := call_sunat_go_all_exc oracle d R 0 Option.none [] hR
      (fun j hj => by simpa using hexc j hj)
    simpa [call_sunat] using this
  · have := call_sunat_go_exc_then_ok oracle d b t k R 0 Option.none [] hk
      (fun j hj => by simpa using hexc j hj) (by simpa using hok)
    simpa [call_sunat] using this

/-- Witness for C6: with RETRY_MAX = 3 and every attempt a transport
exception, the call fails with the third exception description after
sleeping 2, 4, 6 seconds. -/
theorem call_sunat_spec_witness :
    call_sunat 3 w6_oracle =
      ((false, PyVal.obj [("error", PyVal.str ("boom2"))]), [2, 4, 6]) :=
  (call_sunat_spec 3 w6_oracle (by decide)).2.2.1 w6_d (fun i _ => rfl)

/-- Exhausting the token search space: every combination failing makes
get_token_go raise with the message built from the last combination's
error. -/
theorem get_token_go_all_fail (try_ : TokenCombo → TryResult) (st : TokenState) (now : Int) :
    ∀ pre c lastErr attempted, (∀ x ∈ pre ++ [c], tryFailed (try_ x) = true) →
      get_token_go try_ st now (pre ++ [c]) lastErr attempted =
        { result := Except.error ("No se pudo obtener token SUNAT. Último error: " ++
            pyStrOfOpt (tryErrText c (try_ c)))
          state := st
          attempts := attempted.reverse ++ (pre ++ [c]) } := by
  intro pre
  induction pre with
  | nil =>
    intro c lastErr attempted hfail
    have hc := hfail c (by simp)
    cases htc : try_ c with
    | ok tok e =>
      rw [htc] at hc
      simp [tryFailed] at hc
    | httpFail s t =>
      simp [get_token_go, htc]
    | exc d =>
      simp [get_token_go, htc]
  | cons x pre ih =>
    intro c lastErr attempted hfail
    have hx := hfail x (by simp)
    cases htx : try_ x with
    | ok tok e =>
      rw [htx] at hx
      simp [tryFailed] at hx
    | httpFail s t =>
      show get_token_go try_ st now (x :: (pre ++ [c])) lastErr attempted = _
      simp only [get_token_go, htx]
      rw [ih c (tryErrText x (TryResult.httpFail s t)) (x :: attempted)
        (fun y hy => hfail y (by simp at hy ⊢; tauto))]
      simp [List.append_assoc]
    | exc d =>
      show get_token_go try_ st now (x :: (pre ++ [c])) lastErr attempted = _
      simp only [get_token_go, htx]
      rw [ih c (tryErrText x (TryResult.exc d)) (x :: attempted)
        (fun y hy => hfail y (by simp at hy ⊢; tauto))]
      simp [List.append_assoc]

/-- Stopping at the first HTTP 200 of the search space: the combinations
before it fail, it succeeds, nothing after it is attempted, and the token
is cached with expiry now + expires_in. -/
theorem get_token_go_first_ok (try_ : TokenCombo → TryResult) (st : TokenState) (now : Int) :
    ∀ pre c post tok e lastErr attempted,
      (∀ x ∈ pre, tryFailed (try_ x) = true) → try_ c = TryResult.ok tok e →
      get_token_go try_ st now (pre ++ c :: post) lastErr attempted =
        { result := Except.ok (tok, now + e)
          state := { cachedToken := some tok, tokenExp := now + e }
          attempts := attempted.reverse ++ (pre ++ [c]) } := by
  intro pre
  induction pre with
  | nil =>
    intro c post tok e lastErr attempted _ hok
    show get_token_go try_ st now (c :: post) lastErr attempted = _
    simp [get_token_go, hok]
  | cons x pre ih =>
    intro c post tok e lastErr attempted hfail hok
    have hx := hfail x (by simp)
    cases htx : try_ x with
    | ok tok2 e2 =>
      rw [htx] at hx
      simp [tryFailed] at hx
    | httpFail s t =>
      show get_token_go try_ st now (x :: (pre ++ c :: post)) lastErr attempted = _
      simp only [get_token_go, htx]
      rw [ih c post tok e (tryErrText x (TryResult.httpFail s t)) (x :: attempted)
        (fun y hy => hfail y (by simp [hy])) hok]
      simp [List.append_assoc]
    | exc d =>
      show get_token_go try_ st now (x :: (pre ++ c :: post)) lastErr attempted = _
      simp only [get_token_go, htx]
      rw [ih c post tok e (tryErrText x (TryResult.exc d)) (x :: attempted)
        (fun y hy => hfail y (by simp [hy])) hok]
      simp [List.append_assoc]

/-- C7: get_token returns the cached pair with no acquisition attempt
whenever the cached token is truthy and its remaining validity exceeds the
60-second margin (first conjunct, attempts = []); otherwise it walks the
endpoints × auth-modes × scopes space in order, stopping at the first
HTTP 200 (third conjunct: the attempts are exactly the failing front and
the first success, and the token is cached); if every combination fails it
raises carrying the error of the last combination tried (second
conjunct). -/
theorem get_token_spec (cid sec : String) (st : TokenState) (now : Int)
    (try_ : TokenCombo → TryResult)
    (hcid : (pyStrip cid == "") = false) (hsec : (pyStrip sec == "") = false) :
    (∀ tok, st.cachedToken = some tok → (tok == "") = false → st.tokenExp - now > 60 →
      get_token cid sec st now try_ =
        { result := Except.ok (tok, st.tokenExp), state := st, attempts := [] }) ∧
    ((tokenTruthy st.cachedToken && decide (st.tokenExp - now > 60)) = false →
      (∀ c ∈ token_combos (pyStrip cid), tryFailed (try_ c) = true) →
      get_token cid sec st now try_ =
        { result := Except.error ("No se pudo obtener token SUNAT. Último error: " ++
            pyStrOfOpt (tryErrText (tokenLastCombo (pyStrip cid))
              (try_ (tokenLastCombo (pyStrip cid)))))
          state := st
          attempts := token_combos (pyStrip cid) }) ∧
    (∀ pre c post tok e,
      (tokenTruthy st.cachedToken && decide (st.tokenExp - now > 60)) = false →
      token_combos (pyStrip cid) = pre ++ c :: post →
      (∀ x ∈ pre, tryFailed (try_ x) = true) → try_ c = TryResult.ok tok e →
      get_token cid sec st now try_ =
        { result := Except.ok (tok, now + e)
          state := { cachedToken := some tok, tokenExp := now + e }
          attempts := pre ++ [c] }) := by
  refine ⟨fun tok hcache htok hgt => ?_, fun hmiss hfail => ?_, fun pre c post tok e hmiss hsplit hfail hok => ?_⟩
  · simp [get_token, hcid, hsec, hcache, tokenTruthy, htok, hgt]
  · have hsplit : token_combos (pyStrip cid) =
        (token_combos (pyStrip cid)).dropLast ++ [tokenLastCombo (pyStrip cid)] := rfl
    simp only [get_token, hcid, hsec, Bool.or_self, Bool.false_eq_true, if_false, hmiss]
    rw [hsplit]
    rw [get_token_go_all_fail try_ st now (token_combos (pyStrip cid)).dropLast
      (tokenLastCombo (pyStrip cid)) Option.none []
      (fun x hx => hfail x (by rw [hsplit]; exact hx))]
    simp
  · simp only [get_token, hcid, hsec, Bool.or_self, Bool.false_eq_true, if_false, hmiss]
    rw [hsplit]
    rw [get_token_go_first_ok try_ st now pre c post tok e Option.none [] hfail hok]
    simp

/-- Witness for C7, cache-hit arm: a cached token with 1000 seconds of
validity is returned with no acquisition attempt. -/
theorem get_token_spec_witness :
    get_token ("id") ("sec") { cachedToken := some ("tok"), tokenExp := 1000 } 0 wTokenFail =
      { result := Except.ok (("tok"), 1000)
        state := { cachedToken := some ("tok"), tokenExp := 1000 }
        attempts := [] } :=
  (get_token_spec ("id") ("sec") { cachedToken := some ("tok"), tokenExp := 1000 } 0 wTokenFail
    (by decide) (by decide)).1 ("tok") rfl (by decide) (by decide)

/-- Sorted insertion is a permutation of consing. -/
theorem insertByEnqueued_perm (r : QueueRow) (l : List QueueRow) :
    (insertByEnqueued r l).Perm (r :: l) := by
  induction l with
  | nil => exact List.Perm.refl _
  | cons x xs ih =>
    simp only [insertByEnqueued]
    split
    · exact (ih.cons x).trans (List.Perm.swap r x xs)
    · exact List.Perm.refl _

/-- The claim ordering is a permutation of the claimable rows. -/
theorem sortByEnqueued_perm (l : List QueueRow) : (sortByEnqueued l).Perm l := by
  induction l with
  | nil => exact List.Perm.refl _
  | cons x xs ih =>
    exact (insertByEnqueued_perm x (sortByEnqueued xs)).trans (ih.cons x)

/-- Every claimed row is the queued→processing transition of a row that
was queued in the claimed-from table. -/
theorem fetch_batch_claimed_src (q : List QueueRow) (n : Nat) :
    ∀ r ∈ (fetch_batch q n).1, ∃ r0, r0 ∈ q ∧ r0.status = QStatus.queued ∧ r = claimXform r0 := by
  intro r hr
  simp only [fetch_batch, List.mem_map] at hr
  obtain ⟨r0, hr0, hxf⟩ := hr
  have hmem : r0 ∈ sortByEnqueued (q.filter (fun r => r.status == QStatus.queued)) :=
    List.mem_of_mem_take hr0
  have hmem2 : r0 ∈ q.filter (fun r => r.status == QStatus.queued) :=
    ((sortByEnqueued_perm _).mem_iff).mp hmem
  have hq0 := List.mem_filter.mp hmem2
  exact ⟨r0, hq0.1, by simpa using hq0.2, hxf.symm⟩

/-- A row still queued after a claim was untouched by it. -/
theorem fetch_batch_queued_untouched (q : List QueueRow) (n : Nat) :
    ∀ r ∈ (fetch_batch q n).2, r.status = QStatus.queued → r ∈ q := by
  intro r hr hst
  simp only [fetch_batch, List.mem_map] at hr
  obtain ⟨r0, hr0, hxf⟩ := hr
  by_cases hc : (((sortByEnqueued (q.filter (fun r => r.status == QStatus.queued))).take n).map
      (fun r => r.idQueue)).contains r0.idQueue
  · rw [hc] at hxf
    simp at hxf
    rw [← hxf] at hst
    simp [claimXform] at hst
  · rw [Bool.not_eq_true] at hc
    rw [hc] at hxf
    simp at hxf
    rw [← hxf]
    exact hr0

/-- The claim transformation preserves queue ids. -/
theorem idsQ_map_claimXform (l : List QueueRow) : idsQ (l.map claimXform) = idsQ l := by
  simp [idsQ, List.map_map, Function.comp, claimXform]

/-- Every row of the post-claim table that carries a claimed queue id is
in state processing. -/
theorem fetch_batch_claimed_processing (q : List QueueRow) (n : Nat) :
    ∀ i ∈ idsQ (fetch_batch q n).1, ∀ r ∈ (fetch_batch q n).2, r.idQueue = i →
      r.status = QStatus.processing := by
  intro i hi r hr hid
  have hids : i ∈ ((sortByEnqueued (q.filter (fun r => r.status == QStatus.queued))).take n).map
      (fun r => r.idQueue) := by
    have := idsQ_map_claimXform ((sortByEnqueued (q.filter (fun r => r.status == QStatus.queued))).take n)
    simp only [fetch_batch] at hi
    rw [this] at hi
    exact hi
  simp only [fetch_batch, List.mem_map] at hr
  obtain ⟨r0, hr0, hxf⟩ := hr
  by_cases hc : (((sortByEnqueued (q.filter (fun r => r.status == QStatus.queued))).take n).map
      (fun r => r.idQueue)).contains r0.idQueue = true
  · simp only [hc, if_true] at hxf
    rw [← hxf]
    rfl
  · rw [Bool.not_eq_true] at hc
    simp only [hc, Bool.false_eq_true, if_false] at hxf
    exfalso
    rw [hxf] at hc
    rw [hid] at hc
    exact (by simpa using hc : ¬ i ∈ ((sortByEnqueued (q.filter
      (fun r => r.status == QStatus.queued))).take n).map (fun r => r.idQueue)) hids

/-- A queue id claimable after a claim operation was already claimable
before it. -/
theorem queuedIds_fetch_sub (q : List QueueRow) (n : Nat) :
    ∀ i ∈ queuedIds (fetch_batch q n).2, i ∈ queuedIds q := by
  intro i hi
  unfold queuedIds idsQ at *
  rw [List.mem_map] at hi
  obtain ⟨r, hr, hid⟩ := hi
  have hf := List.mem_filter.mp hr
  have hst : r.status = QStatus.queued := by simpa using hf.2
  have hrq := fetch_batch_queued_untouched q n r hf.1 hst
  rw [List.mem_map]
  exact ⟨r, List.mem_filter.mpr ⟨hrq, hf.2⟩, hid⟩

/-- Claimed queue ids come from claimable rows. -/
theorem claimed_sub_queuedIds (q : List QueueRow) (n : Nat) :
    ∀ i ∈ idsQ (fetch_batch q n).1, i ∈ queuedIds q := by
  intro i hi
  unfold idsQ at hi
  rw [List.mem_map] at hi
  obtain ⟨r, hr, hid⟩ := hi
  obtain ⟨r0, hr0, hst, hxf⟩ := fetch_batch_claimed_src q n r hr
  unfold queuedIds idsQ
  rw [List.mem_map]
  refine ⟨r0, List.mem_filter.mpr ⟨hr0, by simp [hst]⟩, ?_⟩
  rw [← hid, hxf]
  rfl

/-- A claimed queue id is no longer claimable afterwards. -/
theorem fetch_disjoint_next (q : List QueueRow) (n : Nat) :
    ∀ i ∈ idsQ (fetch_batch q n).1, ¬ i ∈ queuedIds (fetch_batch q n).2 := by
  intro i hi hq2
  unfold queuedIds idsQ at hq2
  rw [List.mem_map] at hq2
  obtain ⟨r, hr, hid⟩ := hq2
  have hf := List.mem_filter.mp hr
  have hproc := fetch_batch_claimed_processing q n i hi r hf.1 hid
  have hst : r.status = QStatus.queued := by simpa using hf.2
  rw [hproc] at hst
  exact QStatus.noConfusion hst

/-- Every id claimed anywhere in a claim sequence was claimable at its
start. -/
theorem claim_seq_sub_queued (ns : List Nat) :
    ∀ q : List QueueRow, ∀ b ∈ (claim_seq q ns).1, ∀ i ∈ idsQ b, i ∈ queuedIds q := by
  induction ns with
  | nil =>
    intro q b hb
    simp [claim_seq] at hb
  | cons n ns ih =>
    intro q b hb i hi
    simp only [claim_seq] at hb
    rcases List.mem_cons.mp hb with hb1 | hb2
    · rw [hb1] at hi
      exact claimed_sub_queuedIds q n i hi
    · exact queuedIds_fetch_sub q n i (ih (fetch_batch q n).2 b hb2 i hi)

/-- The claimed batches of a claim sequence are pairwise disjoint in
queue id. -/
theorem claim_seq_pairwise_q (ns : List Nat) :
    ∀ q : List QueueRow,
      List.Pairwise (fun b1 b2 => ∀ i, i ∈ idsQ b1 → ¬ i ∈ idsQ b2) (claim_seq q ns).1 := by
  induction ns with
  | nil =>
    intro q
    simp [claim_seq]
  | cons n ns ih =>
    intro q
    simp only [claim_seq]
    refine List.Pairwise.cons ?_ (ih (fetch_batch q n).2)
    intro b2 hb2 i hi hib2
    exact fetch_disjoint_next q n i hi
      (claim_seq_sub_queued ns (fetch_batch q n).2 b2 hb2 i hib2)

/-- Every row claimed anywhere in a claim sequence is the
queued→processing, attempts+1 transition of a row queued in the original
table. -/
theorem claim_seq_src (ns : List Nat) :
    ∀ q : List QueueRow, ∀ b ∈ (claim_seq q ns).1, ∀ r ∈ b,
      ∃ r0, r0 ∈ q ∧ r0.status = QStatus.queued ∧ r = claimXform r0 := by
  induction ns with
  | nil =>
    intro q b hb
    simp [claim_seq] at hb
  | cons n ns ih =>
    intro q b hb r hr
    simp only [claim_seq] at hb
    rcases List.mem_cons.mp hb with hb1 | hb2
    · rw [hb1] at hr
      exact fetch_batch_claimed_src q n r hr
    · obtain ⟨r0, hr0, hst, hxf⟩ := ih (fetch_batch q n).2 b hb2 r hr
      exact ⟨r0, fetch_batch_queued_untouched q n r0 hr0 hst, hst, hxf⟩

/-- C10: claiming is exclusive.  Any serial order of the atomic claim
operations (the serialized view of N concurrent claimers; READPAST/ROWLOCK
makes each claim atomic and invisible rows are skipped) partitions the
rows: the claimed batches are pairwise disjoint in queue id; every claimed
row is the post-transition (processing, attempts incremented) image of a
row that was queued in the original table; and when invoice ids are unique
in the queue, no invoice id is returned to more than one claimer. -/
theorem fetch_batch_exclusive (q : List QueueRow) (ns : List Nat) :
    List.Pairwise (fun b1 b2 => ∀ i, i ∈ idsQ b1 → ¬ i ∈ idsQ b2) (claim_seq q ns).1 ∧
    (∀ b ∈ (claim_seq q ns).1, ∀ r ∈ b,
      ∃ r0, r0 ∈ q ∧ r0.status = QStatus.queued ∧ r = claimXform r0) ∧
    ((idsF q).Nodup →
      List.Pairwise (fun b1 b2 => ∀ i, i ∈ idsF b1 → ¬ i ∈ idsF b2) (claim_seq q ns).1) := by
  refine ⟨claim_seq_pairwise_q ns q, claim_seq_src ns q, fun hnodup => ?_⟩
  refine List.Pairwise.imp_of_mem ?_ (claim_seq_pairwise_q ns q)
  intro b1 b2 hb1 hb2 hdisj i hi1 hi2
  unfold idsF at hi1 hi2
  rw [List.mem_map] at hi1 hi2
  obtain ⟨r1, hr1, hid1⟩ := hi1
  obtain ⟨r2, hr2, hid2⟩ := hi2
  obtain ⟨r01, hr01, hst1, hxf1⟩ := claim_seq_src ns q b1 hb1 r1 hr1
  obtain ⟨r02, hr02, hst2, hxf2⟩ := claim_seq_src ns q b2 hb2 r2 hr2
  have hq1 : r1.idQueue ∈ idsQ b1 := by
    unfold idsQ
    rw [List.mem_map]
    exact ⟨r1, hr1, rfl⟩
  have hq2 : r2.idQueue ∈ idsQ b2 := by
    unfold idsQ
    rw [List.mem_map]
    exact ⟨r2, hr2, rfl⟩
  have hne : r1.idQueue ≠ r2.idQueue := by
    intro he
    exact hdisj r1.idQueue hq1 (he ▸ hq2)
  have e1 : r01.idFactura = r1.idFactura := by
    rw [hxf1]
    rfl
  have e2 : r02.idFactura = r2.idFactura := by
    rw [hxf2]
    rfl
  have hfeq : r01.idFactura = r02.idFactura := by
    rw [e1, e2, hid1, hid2]
  have hnodup2 : (q.map (fun r => r.idFactura)).Nodup := hnodup
  have heq := List.inj_on_of_nodup_map hnodup2 hr01 hr02 hfeq
  apply hne
  rw [hxf1, hxf2, heq]

/-- Witness for C10: three queued rows claimed by two claimers of size 2
yield invoice-id-disjoint batches. -/
theorem fetch_batch_exclusive_witness :
    List.Pairwise (fun b1 b2 => ∀ i, i ∈ idsF b1 → ¬ i ∈ idsF b2) (claim_seq wq [2, 2]).1 :=
  (fetch_batch_exclusive wq [2, 2]).2.2 (by decide)

/-- The status UPDATE leaves the observable record of every other queue id
unchanged. -/
theorem qstatus_set_other (q : List QueueRow) (idq : Nat) (st : QStatus) (le : Option String)
    (x : Nat) (hx : x ≠ idq) :
    qstatus (set_queue_status q idq st le) x = qstatus q x := by
  unfold qstatus set_queue_status
  rw [List.find?_map]
  have hpred : ((fun r : QueueRow => r.idQueue == x) ∘
      (fun r => if r.idQueue == idq then { r with status := st, lastError := le } else r))
      = (fun r : QueueRow => r.idQueue == x) := by
    funext r
    cases hb : (r.idQueue == idq) <;> simp [Function.comp, hb]
  rw [hpred]
  cases hf : List.find? (fun r => r.idQueue == x) q with
  | none => rfl
  | some r =>
    have hr : r.idQueue = x := by simpa using List.find?_some hf
    have hprop : ¬ r.idQueue = idq := by
      rw [hr]
      exact hx
    simp [hprop]

/-- The status UPDATE makes the target queue id show the written pair,
provided a row with that id exists. -/
theorem qstatus_set_self (q : List QueueRow) (idq : Nat) (st : QStatus) (le : Option String)
    (hx : idq ∈ idsQ q) :
    qstatus (set_queue_status q idq st le) idq = some (st, le) := by
  unfold qstatus set_queue_status
  rw [List.find?_map]
  have hpred : ((fun r : QueueRow => r.idQueue == idq) ∘
      (fun r => if r.idQueue == idq then { r with status := st, lastError := le } else r))
      = (fun r : QueueRow => r.idQueue == idq) := by
    funext r
    cases hb : (r.idQueue == idq) <;> simp [Function.comp, hb]
  rw [hpred]
  have hsome : (List.find? (fun r => r.idQueue == idq) q).isSome = true := by
    rw [List.find?_isSome]
    unfold idsQ at hx
    rw [List.mem_map] at hx
    obtain ⟨r, hr, hid⟩ := hx
    exact ⟨r, hr, by simp [hid]⟩
  cases hf : List.find? (fun r => r.idQueue == idq) q with
  | none =>
    rw [hf] at hsome
    exact absurd hsome (by simp)
  | some r =>
    have hr := List.find?_some hf
    have hprop : r.idQueue = idq := by simpa using hr
    simp [hprop]

/-- The status UPDATE preserves the queue ids. -/
theorem idsQ_set (q : List QueueRow) (idq : Nat) (st : QStatus) (le : Option String) :
    idsQ (set_queue_status q idq st le) = idsQ q := by
  unfold idsQ set_queue_status
  rw [List.map_map]
  apply List.map_congr_left
  intro r _
  cases hb : (r.idQueue == idq) <;> simp [Function.comp, hb]

/-- An UPDATE keyed on one invoice id leaves every other id's snapshot
lookup unchanged. -/
theorem lookupSnap_updWhere_other (snap : List SnapRow) (idf : Nat) (g : SnapRow → SnapRow)
    (hg : ∀ s, (g s).idFactura = s.idFactura) (x : Nat) (hx : x ≠ idf) :
    lookupSnap (updWhere snap idf g) x = lookupSnap snap x := by
  unfold lookupSnap updWhere
  rw [List.find?_map]
  have hpred : ((fun s : SnapRow => s.idFactura == x) ∘
      (fun s => if s.idFactura == idf then g s else s)) = (fun s : SnapRow => s.idFactura == x) := by
    funext s
    cases hb : (s.idFactura == idf) <;> simp [Function.comp, hb, hg]
  rw [hpred]
  cases hf : List.find? (fun s => s.idFactura == x) snap with
  | none => rfl
  | some s =>
    have hs : s.idFactura = x := by simpa using List.find?_some hf
    have hprop : ¬ s.idFactura = idf := by
      rw [hs]
      exact hx
    simp [hprop]

/-- upsert_snapshot touches only its own invoice id. -/
theorem lookupSnap_upsert_other (snap : List SnapRow) (r : QueueRow)
    (e d c m : Option String) (t : Nat) (x : Nat) (hx : x ≠ r.idFactura) :
    lookupSnap (upsert_snapshot snap r e d c m t) x = lookupSnap snap x := by
  cases h : lookupSnap snap r.idFactura with
  | none =>
    simp only [upsert_snapshot, h]
    unfold lookupSnap
    rw [List.find?_append]
    have hne : (r.idFactura == x) = false := by
      simp
      intro heq
      exact hx heq.symm
    have hlast : List.find? (fun s => s.idFactura == x) [snapInsertRow r e d c m t]
        = Option.none := by
      simp [List.find?, snapInsertRow, hne]
    rw [hlast]
    cases List.find? (fun s => s.idFactura == x) snap <;> rfl
  | some prev =>
    simp only [upsert_snapshot, h]
    by_cases hb : ((orEmpty prev.estadoActual != orEmpty e) ||
        (orEmpty prev.estadoDescripcion != orEmpty d)) = true
    · rw [hb]
      simp only [if_true]
      exact lookupSnap_updWhere_other snap r.idFactura (snapChangedUpd e d c m t)
        (fun s => rfl) x hx
    · rw [Bool.not_eq_true] at hb
      rw [hb]
      simp only [Bool.false_eq_true, if_false]
      exact lookupSnap_updWhere_other snap r.idFactura (snapUnchangedUpd c m t)
        (fun s => rfl) x hx

/-- What one loop iteration durably commits: the full write sequence on no
fault; only the rolled-back state plus the error mark on a fault. -/
theorem processItem_committed_of (c : Cnx) (hc : c.draft = c.committed)
    (r : QueueRow) (ok : Bool) (js : PyVal) (te : Int) (now : Nat)
    (f : Option (Nat × String)) :
    (processItem c r ok js te now f).committed =
      match f with
      | Option.none => item_writes c.committed r ok js te now
      | some kd => { c.committed with
                     queue := mark_error_q c.committed.queue r.idQueue (ErrInfo.exc kd.2) } := by
  cases f <;> simp [processItem, commitCnx, rollbackCnx, hc]

/-- Every loop iteration ends in a commit. -/
theorem processItem_draft_eq (c : Cnx) (r : QueueRow) (ok : Bool) (js : PyVal)
    (te : Int) (now : Nat) (f : Option (Nat × String)) :
    (processItem c r ok js te now f).draft = (processItem c r ok js te now f).committed := by
  cases f <;> rfl

/-- One loop iteration preserves the set of queue ids. -/
theorem processItem_idsQ (c : Cnx) (hc : c.draft = c.committed)
    (r : QueueRow) (ok : Bool) (js : PyVal) (te : Int) (now : Nat)
    (f : Option (Nat × String)) :
    idsQ ((processItem c r ok js te now f).committed.queue) = idsQ c.committed.queue := by
  rw [processItem_committed_of c hc]
  cases f with
  | none =>
    cases ok <;> simp [item_writes, mark_done_q, mark_error_q, idsQ_set]
  | some kd =>
    simp [mark_error_q, idsQ_set]

/-- One loop iteration leaves other queue ids' records unchanged. -/
theorem processItem_qstatus_other (c : Cnx) (hc : c.draft = c.committed)
    (r : QueueRow) (ok : Bool) (js : PyVal) (te : Int) (now : Nat)
    (f : Option (Nat × String)) (x : Nat) (hx : x ≠ r.idQueue) :
    qstatus ((processItem c r ok js te now f).committed.queue) x
      = qstatus c.committed.queue x := by
  rw [processItem_committed_of c hc]
  cases f with
  | none =>
    cases ok <;> simp [item_writes, mark_done_q, mark_error_q] <;>
      exact qstatus_set_other _ _ _ _ x hx
  | some kd =>
    simp [mark_error_q]
    exact qstatus_set_other _ _ _ _ x hx

/-- One loop iteration drives its own item to its terminal record. -/
theorem processItem_qstatus_self (c : Cnx) (hc : c.draft = c.committed)
    (r : QueueRow) (ok : Bool) (js : PyVal) (te : Int) (now : Nat)
    (f : Option (Nat × String)) (hx : r.idQueue ∈ idsQ c.committed.queue) :
    qstatus ((processItem c r ok js te now f).committed.queue) r.idQueue
      = some (itemFinalStatus { row := r, ok := ok, js := js, fault := f }) := by
  rw [processItem_committed_of c hc]
  cases f with
  | none =>
    cases ok <;>
      simp [item_writes, mark_done_q, mark_error_q, itemFinalStatus, qstatus_set_self _ _ _ _ hx]
  | some kd =>
    simp [mark_error_q, itemFinalStatus, mark_error_text, qstatus_set_self _ _ _ _ hx]

/-- The history rows one loop iteration durably appends. -/
theorem processItem_hist (c : Cnx) (hc : c.draft = c.committed)
    (r : QueueRow) (ok : Bool) (js : PyVal) (te : Int) (now : Nat)
    (f : Option (Nat × String)) :
    (processItem c r ok js te now f).committed.hist =
      c.committed.hist ++
        (match f with
         | Option.none => [histRowOf r te js]
         | some _ => []) := by
  rw [processItem_committed_of c hc]
  cases f <;> simp [item_writes, item_after_snap, item_after_hist]

/-- One loop iteration leaves other invoice ids' snapshot lookups
unchanged; a faulting iteration leaves the whole snapshot unchanged. -/
theorem processItem_snap_other (c : Cnx) (hc : c.draft = c.committed)
    (r : QueueRow) (ok : Bool) (js : PyVal) (te : Int) (now : Nat)
    (f : Option (Nat × String)) (x : Nat) (hx : x ≠ r.idFactura) :
    lookupSnap ((processItem c r ok js te now f).committed.snap) x
      = lookupSnap c.committed.snap x := by
  rw [processItem_committed_of c hc]
  cases f with
  | none =>
    simp only [item_writes, item_after_snap, item_after_hist]
    exact lookupSnap_upsert_other _ r _ _ _ _ _ x hx
  | some kd => rfl

/-- A faulting iteration commits no snapshot change at all. -/
theorem processItem_snap_fault (c : Cnx) (hc : c.draft = c.committed)
    (r : QueueRow) (ok : Bool) (js : PyVal) (te : Int) (now : Nat) (kd : Nat × String) :
    (processItem c r ok js te now (some kd)).committed.snap = c.committed.snap := by
  rw [processItem_committed_of c hc]

/-- Items later in the loop do not touch a queue id none of them owns. -/
theorem loop_qstatus_other (te : Int) (now : Nat) :
    ∀ (items : List ItemRun) (c : Cnx), c.draft = c.committed →
      ∀ x, (∀ it ∈ items, it.row.idQueue ≠ x) →
      qstatus ((process_batch_loop te now c items).committed.queue) x
        = qstatus c.committed.queue x := by
  intro items
  induction items with
  | nil =>
    intro c hc x hall
    rfl
  | cons it rest ih =>
    intro c hc x hall
    show qstatus ((process_batch_loop te now
      (processItem c it.row it.ok it.js te now it.fault) rest).committed.queue) x = _
    rw [ih (processItem c it.row it.ok it.js te now it.fault)
      (processItem_draft_eq c it.row it.ok it.js te now it.fault) x
      (fun it2 h2 => hall it2 (List.mem_cons_of_mem _ h2))]
    exact processItem_qstatus_other c hc it.row it.ok it.js te now it.fault x
      (Ne.symm (hall it (List.mem_cons_self it rest)))

/-- Items later in the loop do not add history for an invoice id none of
them owns. -/
theorem loop_hist_other (te : Int) (now : Nat) :
    ∀ (items : List ItemRun) (c : Cnx), c.draft = c.committed →
      ∀ x, (∀ it ∈ items, it.row.idFactura ≠ x) →
      histFor ((process_batch_loop te now c items).committed.hist) x
        = histFor c.committed.hist x := by
  intro items
  induction items with
  | nil =>
    intro c hc x hall
    rfl
  | cons it rest ih =>
    intro c hc x hall
    show histFor ((process_batch_loop te now
      (processItem c it.row it.ok it.js te now it.fault) rest).committed.hist) x = _
    rw [ih (processItem c it.row it.ok it.js te now it.fault)
      (processItem_draft_eq c it.row it.ok it.js te now it.fault) x
      (fun it2 h2 => hall it2 (List.mem_cons_of_mem _ h2))]
    rw [processItem_hist c hc it.row it.ok it.js te now it.fault]
    unfold histFor
    rw [List.filter_append]
    have hne : (it.row.idFactura == x) = false := by
      simp
      exact hall it (List.mem_cons_self it rest)
    cases it.fault with
    | none => simp [histRowOf, hne]
    | some kd => simp

/-- Items later in the loop do not touch a snapshot id none of them
owns. -/
theorem loop_snap_other (te : Int) (now : Nat) :
    ∀ (items : List ItemRun) (c : Cnx), c.draft = c.committed →
      ∀ x, (∀ it ∈ items, it.row.idFactura ≠ x) →
      lookupSnap ((process_batch_loop te now c items).committed.snap) x
        = lookupSnap c.committed.snap x := by
  intro items
  induction items with
  | nil =>
    intro c hc x hall
    rfl
  | cons it rest ih =>
    intro c hc x hall
    show lookupSnap ((process_batch_loop te now
      (processItem c it.row it.ok it.js te now it.fault) rest).committed.snap) x = _
    rw [ih (processItem c it.row it.ok it.js te now it.fault)
      (processItem_draft_eq c it.row it.ok it.js te now it.fault) x
      (fun it2 h2 => hall it2 (List.mem_cons_of_mem _ h2))]
    exact processItem_snap_other c hc it.row it.ok it.js te now it.fault x
      (Ne.symm (hall it (List.mem_cons_self it rest)))

/-- After the loop, every processed item shows exactly its terminal
record. -/
theorem loop_qstatus_item (te : Int) (now : Nat) :
    ∀ (items : List ItemRun) (c : Cnx), c.draft = c.committed →
      (items.map (fun i => i.row.idQueue)).Nodup →
      ∀ it ∈ items, it.row.idQueue ∈ idsQ c.committed.queue →
      qstatus ((process_batch_loop te now c items).committed.queue) it.row.idQueue
        = some (itemFinalStatus it) := by
  intro items
  induction items with
  | nil =>
    intro c hc hnodup it hit
    exact absurd hit (List.not_mem_nil it)
  | cons x rest ih =>
    intro c hc hnodup it hit hpres
    have hnd := List.nodup_cons.mp hnodup
    rcases List.mem_cons.mp hit with heq | hmem
    · subst heq
      show qstatus ((process_batch_loop te now
        (processItem c it.row it.ok it.js te now it.fault) rest).committed.queue)
          it.row.idQueue = _
      rw [loop_qstatus_other te now rest
        (processItem c it.row it.ok it.js te now it.fault)
        (processItem_draft_eq c it.row it.ok it.js te now it.fault) it.row.idQueue
        (fun it2 h2 heq2 => hnd.1 (by
          show it.row.idQueue ∈ List.map (fun i => i.row.idQueue) rest
          rw [← heq2]
          exact List.mem_map_of_mem (fun i => i.row.idQueue) h2))]
      have hself := processItem_qstatus_self c hc it.row it.ok it.js te now it.fault hpres
      simpa using hself
    · show qstatus ((process_batch_loop te now
        (processItem c x.row x.ok x.js te now x.fault) rest).committed.queue)
          it.row.idQueue = _
      apply ih (processItem c x.row x.ok x.js te now x.fault)
        (processItem_draft_eq c x.row x.ok x.js te now x.fault) hnd.2 it hmem
      rw [processItem_idsQ c hc x.row x.ok x.js te now x.fault]
      exact hpres

/-- After the loop, every processed item's history shows exactly the rows
its own iteration durably appended: one row when the sequence committed,
none when it faulted. -/
theorem loop_hist_item (te : Int) (now : Nat) :
    ∀ (items : List ItemRun) (c : Cnx), c.draft = c.committed →
      (items.map (fun i => i.row.idFactura)).Nodup →
      ∀ it ∈ items,
      histFor ((process_batch_loop te now c items).committed.hist) it.row.idFactura
        = histFor c.committed.hist it.row.idFactura ++
          (match it.fault with
           | Option.none => [histRowOf it.row te it.js]
           | some _ => []) := by
  intro items
  induction items with
  | nil =>
    intro c hc hnodup it hit
    exact absurd hit (List.not_mem_nil it)
  | cons x rest ih =>
    intro c hc hnodup it hit
    have hnd := List.nodup_cons.mp hnodup
    rcases List.mem_cons.mp hit with heq | hmem
    · subst heq
      show histFor ((process_batch_loop te now
        (processItem c it.row it.ok it.js te now it.fault) rest).committed.hist)
          it.row.idFactura = _
      rw [loop_hist_other te now rest
        (processItem c it.row it.ok it.js te now it.fault)
        (processItem_draft_eq c it.row it.ok it.js te now it.fault) it.row.idFactura
        (fun it2 h2 heq2 => hnd.1 (by
          show it.row.idFactura ∈ List.map (fun i => i.row.idFactura) rest
          rw [← heq2]
          exact List.mem_map_of_mem (fun i => i.row.idFactura) h2))]
      rw [processItem_hist c hc it.row it.ok it.js te now it.fault]
      unfold histFor
      rw [List.filter_append]
      cases it.fault with
      | none => simp [histRowOf]
      | some kd => simp
    · show histFor ((process_batch_loop te now
        (processItem c x.row x.ok x.js te now x.fault) rest).committed.hist)
          it.row.idFactura = _
      rw [ih (processItem c x.row x.ok x.js te now x.fault)
        (processItem_draft_eq c x.row x.ok x.js te now x.fault) hnd.2 it hmem]
      rw [processItem_hist c hc x.row x.ok x.js te now x.fault]
      unfold histFor
      rw [List.filter_append]
      have hne : (x.row.idFactura == it.row.idFactura) = false := by
        simp
        intro heq2
        apply hnd.1
        show x.row.idFactura ∈ List.map (fun i => i.row.idFactura) rest
        rw [heq2]
        exact List.mem_map_of_mem (fun i => i.row.idFactura) hmem
      cases x.fault with
      | none => simp [histRowOf, hne]
      | some kd => simp

/-- After the loop, a faulting item's snapshot lookup is exactly what it
was before the batch: its own uncommitted writes were rolled back and no
other item touches its invoice id. -/
theorem loop_snap_fault_item (te : Int) (now : Nat) :
    ∀ (items : List ItemRun) (c : Cnx), c.draft = c.committed →
      (items.map (fun i => i.row.idFactura)).Nodup →
      ∀ it ∈ items, ∀ kd, it.fault = some kd →
      lookupSnap ((process_batch_loop te now c items).committed.snap) it.row.idFactura
        = lookupSnap c.committed.snap it.row.idFactura := by
  intro items
  induction items with
  | nil =>
    intro c hc hnodup it hit
    exact absurd hit (List.not_mem_nil it)
  | cons x rest ih =>
    intro c hc hnodup it hit kd hkd
    have hnd := List.nodup_cons.mp hnodup
    rcases List.mem_cons.mp hit with heq | hmem
    · subst heq
      show lookupSnap ((process_batch_loop te now
        (processItem c it.row it.ok it.js te now it.fault) rest).committed.snap)
          it.row.idFactura = _
      rw [loop_snap_other te now rest
        (processItem c it.row it.ok it.js te now it.fault)
        (processItem_draft_eq c it.row it.ok it.js te now it.fault) it.row.idFactura
        (fun it2 h2 heq2 => hnd.1 (by
          show it.row.idFactura ∈ List.map (fun i => i.row.idFactura) rest
          rw [← heq2]
          exact List.mem_map_of_mem (fun i => i.row.idFactura) h2))]
      rw [hkd]
      rw [processItem_snap_fault c hc it.row it.ok it.js te now kd]
    · show lookupSnap ((process_batch_loop te now
        (processItem c x.row x.ok x.js te now x.fault) rest).committed.snap)
          it.row.idFactura = _
      rw [ih (processItem c x.row x.ok x.js te now x.fault)
        (processItem_draft_eq c x.row x.ok x.js te now x.fault) hnd.2 it hmem kd hkd]
      exact processItem_snap_other c hc x.row x.ok x.js te now x.fault it.row.idFactura
        (fun heq2 => hnd.1 (by
          show x.row.idFactura ∈ List.map (fun i => i.row.idFactura) rest
          rw [← heq2]
          exact List.mem_map_of_mem (fun i => i.row.idFactura) hmem))

/-- C8: a persistence failure while writing one item's
history/snapshot/status sequence is isolated to that item.  First block:
for a faulting item, the committed state shows the item marked error with
the truncated exception detail, no history row for its invoice, and an
unchanged snapshot for its invoice — its uncommitted writes were rolled
back.  Second block: every non-faulting item of the same batch still
settles normally (its full write sequence is committed as one unit:
exactly one history row appended and its terminal queue status written),
so processing continued for the remaining items. -/
theorem process_batch_fault_isolation
    (db : BatchDB) (tokenExp : Int) (now : Nat) (items : List ItemRun)
    (hq : (items.map (fun it => it.row.idQueue)).Nodup)
    (hf : (items.map (fun it => it.row.idFactura)).Nodup) :
    (∀ it ∈ items, ∀ k desc, it.fault = some (k, desc) →
      (it.row.idQueue ∈ idsQ db.queue →
        qstatus ((process_batch_loop tokenExp now
            { committed := db, draft := db } items).committed.queue) it.row.idQueue
          = some (QStatus.error, some (pyTake desc 3900))) ∧
      histFor ((process_batch_loop tokenExp now
          { committed := db, draft := db } items).committed.hist) it.row.idFactura
        = histFor db.hist it.row.idFactura ∧
      lookupSnap ((process_batch_loop tokenExp now
          { committed := db, draft := db } items).committed.snap) it.row.idFactura
        = lookupSnap db.snap it.row.idFactura) ∧
    (∀ it ∈ items, it.fault = Option.none →
      (it.row.idQueue ∈ idsQ db.queue →
        qstatus ((process_batch_loop tokenExp now
            { committed := db, draft := db } items).committed.queue) it.row.idQueue
          = some (itemFinalStatus it)) ∧
      histFor ((process_batch_loop tokenExp now
          { committed := db, draft := db } items).committed.hist) it.row.idFactura
        = histFor db.hist it.row.idFactura ++ [histRowOf it.row tokenExp it.js]) := by
  constructor
  · intro it hit k desc hfault
    refine ⟨fun hpres => ?_, ?_, ?_⟩
    · have h := loop_qstatus_item tokenExp now items
        { committed := db, draft := db } rfl hq it hit hpres
      rw [h]
      simp [itemFinalStatus, hfault]
    · have h := loop_hist_item tokenExp now items { committed := db, draft := db } rfl hf it hit
      rw [h, hfault]
      simp
    · exact loop_snap_fault_item tokenExp now items { committed := db, draft := db } rfl hf
        it hit (k, desc) hfault
  · intro it hit hfault
    refine ⟨fun hpres =>
      loop_qstatus_item tokenExp now items { committed := db, draft := db } rfl hq it hit hpres,
      ?_⟩
    have h := loop_hist_item tokenExp now items { committed := db, draft := db } rfl hf it hit
    rw [h, hfault]

/-- Witness for C8: a two-item batch where item 1 faults during its
snapshot write and item 2 settles: item 1 ends error with the exception
text and leaves no history or snapshot trace; item 2 still commits its
history row and its done status. -/
theorem process_batch_fault_isolation_witness :
    qstatus ((process_batch_loop 7 4
        { committed := wdb, draft := wdb } [wit1, wit2]).committed.queue) 1
      = some (QStatus.error, some (pyTake ("boom") 3900)) ∧
    histFor ((process_batch_loop 7 4
        { committed := wdb, draft := wdb } [wit1, wit2]).committed.hist) 100 = [] ∧
    lookupSnap ((process_batch_loop 7 4
        { committed := wdb, draft := wdb } [wit1, wit2]).committed.snap) 100 = Option.none ∧
    histFor ((process_batch_loop 7 4
        { committed := wdb, draft := wdb } [wit1, wit2]).committed.hist) 200
      = [histRowOf wit2.row 7 wit2.js] := by
  have h := process_batch_fault_isolation wdb 7 4 [wit1, wit2] (by decide) (by decide)
  have h1 := h.1 wit1 (List.mem_cons_self wit1 [wit2]) 1 ("boom") rfl
  have h2 := h.2 wit2 (List.mem_cons_of_mem wit1 (List.mem_cons_self wit2 [])) rfl
  exact ⟨h1.1 (by decide), h1.2.1, h1.2.2, h2.2⟩

/-- The claim UPDATE does not change the set of queue ids. -/
theorem idsQ_fetch2 (q : List QueueRow) (n : Nat) : idsQ (fetch_batch q n).2 = idsQ q := by
  unfold fetch_batch idsQ
  rw [List.map_map]
  apply List.map_congr_left
  intro r _
  simp only [Function.comp]
  split
  · rfl
  · rfl

/-- Claim batches inherit queue-id uniqueness from the table. -/
theorem idsQ_claimed_nodup (q : List QueueRow) (n : Nat) (hq : (idsQ q).Nodup) :
    (idsQ (fetch_batch q n).1).Nodup := by
  have h0 : (fetch_batch q n).1
      = ((sortByEnqueued (q.filter (fun r => r.status == QStatus.queued))).take n).map
          claimXform := rfl
  rw [h0, idsQ_map_claimXform]
  have hsub1 : (q.filter (fun r => r.status == QStatus.queued)).Sublist q :=
    List.filter_sublist q
  have h1 : (idsQ (q.filter (fun r => r.status == QStatus.queued))).Nodup :=
    List.Nodup.sublist (List.Sublist.map (fun r : QueueRow => r.idQueue) hsub1) hq
  have hperm : (sortByEnqueued (q.filter (fun r => r.status == QStatus.queued))).Perm
      (q.filter (fun r => r.status == QStatus.queued)) :=
    sortByEnqueued_perm _
  have h2 : (idsQ (sortByEnqueued (q.filter (fun r => r.status == QStatus.queued)))).Nodup :=
    ((List.Perm.map (fun r : QueueRow => r.idQueue) hperm).nodup_iff).mpr h1
  have hsub2 : ((sortByEnqueued (q.filter (fun r => r.status == QStatus.queued))).take n).Sublist
      (sortByEnqueued (q.filter (fun r => r.status == QStatus.queued))) :=
    List.take_sublist n (sortByEnqueued (q.filter (fun r => r.status == QStatus.queued)))
  exact List.Nodup.sublist (List.Sublist.map (fun r : QueueRow => r.idQueue) hsub2) h2

/-- A claimed row's queue id exists in the table. -/
theorem claimed_id_in_q (q : List QueueRow) (n : Nat) :
    ∀ r ∈ (fetch_batch q n).1, r.idQueue ∈ idsQ q := by
  intro r hr
  obtain ⟨r0, hr0, hst, hxf⟩ := fetch_batch_claimed_src q n r hr
  unfold idsQ
  rw [List.mem_map]
  refine ⟨r0, hr0, ?_⟩
  rw [hxf]
  rfl

/-- C9: after one batch cycle, every row claimed into processing at the
start of the cycle ends in exactly done or error: done when the validation
call succeeded and its writes committed, error when the call failed or the
item's persistence faulted.  No claimed row remains processing. -/
theorem process_batch_terminal
    (db : BatchDB) (n : Nat) (outcome : QueueRow → Bool × PyVal × Option (Nat × String))
    (tokenExp : Int) (now : Nat) (hq : (idsQ db.queue).Nodup) :
    ∀ r ∈ (run_cycle db n outcome tokenExp now).1,
      ∃ st le,
        qstatus ((run_cycle db n outcome tokenExp now).2.committed.queue) r.idQueue
          = some (st, le) ∧
        (st = QStatus.done ∨ st = QStatus.error) ∧
        ((outcome r).2.2 = Option.none → (outcome r).1 = true → st = QStatus.done) ∧
        ((outcome r).2.2 = Option.none → (outcome r).1 = false → st = QStatus.error) ∧
        (∀ k d, (outcome r).2.2 = some (k, d) → st = QStatus.error) := by
  intro r hr
  have hclaimed : (run_cycle db n outcome tokenExp now).1 = (fetch_batch db.queue n).1 := rfl
  rw [hclaimed] at hr
  have hmem : mkItemRun outcome r ∈ (fetch_batch db.queue n).1.map (mkItemRun outcome) :=
    List.mem_map_of_mem (mkItemRun outcome) hr
  have hnodup : (((fetch_batch db.queue n).1.map (mkItemRun outcome)).map
      (fun i => i.row.idQueue)).Nodup := by
    rw [List.map_map]
    exact idsQ_claimed_nodup db.queue n hq
  have hpres : r.idQueue ∈ idsQ (fetch_batch db.queue n).2 := by
    rw [idsQ_fetch2]
    exact claimed_id_in_q db.queue n r hr
  have h := loop_qstatus_item tokenExp now
    ((fetch_batch db.queue n).1.map (mkItemRun outcome))
    { committed := { db with queue := (fetch_batch db.queue n).2 },
      draft := { db with queue := (fetch_batch db.queue n).2 } } rfl hnodup
    (mkItemRun outcome r) hmem hpres
  refine ⟨(itemFinalStatus (mkItemRun outcome r)).1,
    (itemFinalStatus (mkItemRun outcome r)).2, h, ?_, ?_, ?_, ?_⟩
  · rcases h2 : (outcome r).2.2 with _ | kd <;> rcases h1 : (outcome r).1 <;>
      simp [itemFinalStatus, mkItemRun, h2, h1]
  · intro hnone htrue
    simp [itemFinalStatus, mkItemRun, hnone, htrue]
  · intro hnone hfalse
    simp [itemFinalStatus, mkItemRun, hnone, hfalse]
  · intro k d hsome
    simp [itemFinalStatus, mkItemRun, hsome]

/-- Witness for C9: in a cycle of batch size 2 over the three-row queue,
the claimed row with queue id 2 (oldest) ends in a terminal state. -/
theorem process_batch_terminal_witness :
    ∃ st le,
      qstatus ((run_cycle wcdb 2 wOutcome 7 4).2.committed.queue)
          (claimXform (wqRow 2 200 1)).idQueue = some (st, le) ∧
      (st = QStatus.done ∨ st = QStatus.error) ∧
      ((wOutcome (claimXform (wqRow 2 200 1))).2.2 = Option.none →
        (wOutcome (claimXform (wqRow 2 200 1))).1 = true → st = QStatus.done) ∧
      ((wOutcome (claimXform (wqRow 2 200 1))).2.2 = Option.none →
        (wOutcome (claimXform (wqRow 2 200 1))).1 = false → st = QStatus.error) ∧
      (∀ k d, (wOutcome (claimXform (wqRow 2 200 1))).2.2 = some (k, d) →
        st = QStatus.error) :=
  process_batch_terminal wcdb 2 wOutcome 7 4 (by decide) (claimXform (wqRow 2 200 1)) (by decide)

end SunatWorker
